import Mathlib

set_option maxRecDepth 100000

/-!
Verification of the query-understanding / retrieval pipeline and hand-evaluation
heuristic of the Soff Belote assistant (`streamlit_belote_app.py`).

Shallow embedding conventions:
* Python strings are `List Char`; string literals are written `("...").data`.
* Python floats are `ℚ` (every float in the program is an exact decimal).
* Python `str.lower()` is modelled ASCII-wise (`pyLowerChar`); every input
  analysed below is ASCII or already lower-case on its non-ASCII letters,
  which matches Python's behaviour on those inputs.
* Functions whose Python counterpart recurses on a shrinking string are
  written with an explicit structural fuel argument (`…F fuel …`) so that the
  kernel can evaluate them; the public wrapper supplies fuel that strictly
  dominates the recursion depth.
* `re` regular expressions appearing in the source are embedded as explicit
  syntax trees (`SubAtom` for the substitution patterns of
  `LanguageProcessor.normalize_query`, `SAtom` for the search patterns of
  `handle_enhanced_patterns`), with Python's leftmost / greedy / first
  alternative preferences reproduced where they are observable.
* External collaborators (sentence-transformer cosine similarities, the
  `fuzzywuzzy` scorer, dependency availability, the response cache) enter as
  explicit parameters, following the spec's own advice (§9) to treat them as
  injected capability interfaces.  The total Lean functions model the fact
  that the Python code never lets these paths raise (`try/except` walls).
-/

/-- ASCII lower-casing of one character, as `str.lower()` does on ASCII. -/
def pyLowerChar (c : Char) : Char :=
  if 65 ≤ c.toNat ∧ c.toNat ≤ 90 then Char.ofNat (c.toNat + 32) else c

/-- `str.lower()` on a whole string. -/
def pyLower (s : List Char) : List Char := s.map pyLowerChar

/-- Whitespace test used by `str.strip()` and `\s` (ASCII fragment). -/
def isPySpace (c : Char) : Bool := c.isWhitespace

/-- `str.strip()`: drop whitespace from both ends. -/
def pyStrip (s : List Char) : List Char :=
  ((s.dropWhile isPySpace).reverse.dropWhile isPySpace).reverse

/-- Python's `needle in haystack` substring containment test. -/
def containsSub (pat : List Char) : List Char → Bool
  | [] => pat.isPrefixOf []
  | c :: rest => pat.isPrefixOf (c :: rest) || containsSub pat rest

/-- Word character for `\w` / `\b`: ASCII alphanumeric, underscore; non-ASCII
letters are word characters in Python 3, and no non-letter non-ASCII character
is adjacent to a digit in any analysed input, so all non-ASCII characters are
treated as word characters. -/
def isWordChar (c : Char) : Bool := c.isAlphanum || c = '_' || decide (128 ≤ c.toNat)

/-- The two languages the application is used with; every claim restricts the
`language` argument to `'fr'` or `'en'`, so the embedding fixes that domain. -/
inductive Lang where
  | fr
  | en
deriving DecidableEq

/-! ## Hand evaluator (`EnhancedHandEvaluator`) -/

/-- Result record of `_analyze_trumps`. -/
structure TrumpAnalysis where
  has_jack : Bool
  has_nine : Bool
  has_ace : Bool
  has_ten : Bool
  trump_count : Nat
  complete_trumps : Bool
deriving DecidableEq

/-- Result record of `_analyze_colors`. -/
structure ColorAnalysis where
  color_count : Nat
  colors : List (List Char)
deriving DecidableEq

/-- Token list of the `trump_count` regex
`(?:valet|jack|9|neuf|as|ace|10|dix|roi|king|dame|queen)`, in source order. -/
def trumpCountTokens : List (List Char) :=
  [("valet").data, ("jack").data, ("9").data, ("neuf").data, ("as").data,
   ("ace").data, ("10").data, ("dix").data, ("roi").data, ("king").data,
   ("dame").data, ("queen").data]

/-- `len(re.findall(alternation, s))`: scan left to right; at each position try
the alternatives in order, and on a match continue after it (non-overlapping
matches, first-alternative preference — Python `re` semantics for an
alternation of literals). Fuelled structural recursion. -/
def countTokensF (toks : List (List Char)) : Nat → List Char → Nat
  | 0, _ => 0
  | _ + 1, [] => 0
  | fuel + 1, c :: rest =>
    match (toks.filter (fun t => t.isPrefixOf (c :: rest))).head? with
    | some t => 1 + countTokensF toks fuel (rest.drop (t.length - 1))
    | none => countTokensF toks fuel rest

/-- Non-overlapping count of alternation matches (wrapper with ample fuel). -/
def countTokens (toks : List (List Char)) (s : List Char) : Nat :=
  countTokensF toks s.length s

/-- `EnhancedHandEvaluator._analyze_trumps` (argument is the already
lower-cased description). -/
def analyze_trumps (description : List Char) : TrumpAnalysis :=
  let has_jack := [("valet").data, ("jack").data, ("v").data, ("j").data].any
    (fun w => containsSub w description)
  let has_nine := [("9").data, ("neuf").data, ("nine").data].any
    (fun w => containsSub w description)
  let has_ace := [("as").data, ("ace").data, ("a").data].any
    (fun w => containsSub w description)
  let has_ten := [("10").data, ("dix").data, ("ten").data].any
    (fun w => containsSub w description)
  { has_jack := has_jack
    has_nine := has_nine
    has_ace := has_ace
    has_ten := has_ten
    trump_count := countTokens trumpCountTokens description
    complete_trumps := has_jack && has_nine && has_ace && has_ten }

/-- `EnhancedHandEvaluator._analyze_colors`. -/
def analyze_colors (description : List Char) : ColorAnalysis :=
  let colors :=
    (if [("cœur").data, ("coeur").data, ("heart").data].any
        (fun w => containsSub w description) then [("heart").data] else []) ++
    (if [("carreau").data, ("diamond").data].any
        (fun w => containsSub w description) then [("diamond").data] else []) ++
    (if [("trèfle").data, ("trefle").data, ("club").data].any
        (fun w => containsSub w description) then [("club").data] else []) ++
    (if [("pique").data, ("spade").data].any
        (fun w => containsSub w description) then [("spade").data] else [])
  { color_count := colors.length, colors := colors }

/-- The record a `_determine_recommendation` branch returns. -/
structure Rec where
  points : Nat
  confidence : ℚ
  reasoning : List Char
  alternatives : List Nat

/-- `EnhancedHandEvaluator._determine_recommendation` (the `description`
argument of the source is unused there and is omitted). -/
def determine_recommendation (ta : TrumpAnalysis) (ca : ColorAnalysis) : Rec :=
  if ta.complete_trumps ∧ 6 ≤ ta.trump_count then
    { points := 140, confidence := 0.85
      reasoning := ("Main exceptionnelle détectée - adversaire aura maximum 1 pli").data
      alternatives := [130, 120] }
  else if ta.complete_trumps ∧ ca.color_count ≤ 2 then
    { points := 130, confidence := 0.9
      reasoning := ("Maximum 2 couleurs + atouts complets détectés").data
      alternatives := [120, 110] }
  else if ta.complete_trumps ∧ ca.color_count ≤ 3 then
    { points := 120, confidence := 0.85
      reasoning := ("Maximum 3 couleurs + atouts complets détectés").data
      alternatives := [110, 130] }
  else if ta.complete_trumps then
    { points := 110, confidence := 0.9
      reasoning := ("Atouts complets détectés (Valet, 9, As, 10)").data
      alternatives := [100, 120] }
  else if 3 ≤ ta.trump_count then
    { points := 100, confidence := 0.7
      reasoning := ("Main équilibrée - flexibilité maximale").data
      alternatives := [90, 110] }
  else
    { points := 90, confidence := 0.6
      reasoning := ("Configuration de base recommandée avec 2 As minimum").data
      alternatives := [100] }

/-- `'✅' if b else '❌'`. -/
def checkMark (b : Bool) : List Char := if b then ("✅").data else ("❌").data

/-- `', '.join(colors)` with the fallback wording of the source. -/
def joinedColors (colors : List (List Char)) (emptyText : List Char) : List Char :=
  if colors.isEmpty then emptyText else (", ").data.intercalate colors

/-- `EnhancedHandEvaluator._generate_detailed_analysis`. -/
def generate_detailed_analysis (ta : TrumpAnalysis) (ca : ColorAnalysis)
    (language : Lang) : List Char :=
  match language with
  | Lang.fr =>
    ("**Analyse détaillée de votre main:**\n\n**Atouts détectés:**\n• Valet: ").data ++
    checkMark ta.has_jack ++ ("\n• 9: ").data ++ checkMark ta.has_nine ++
    ("\n• As: ").data ++ checkMark ta.has_ace ++ ("\n• 10: ").data ++
    checkMark ta.has_ten ++ ("\n• Atouts complets: ").data ++
    checkMark ta.complete_trumps ++
    ("\n\n**Distribution des couleurs:**\n• Nombre de couleurs: ").data ++
    (Nat.repr ca.color_count).data ++ ("\n• Couleurs identifiées: ").data ++
    joinedColors ca.colors ("Non spécifiées").data ++
    ("\n\n**Recommandations stratégiques:**\n• Conservez vos atouts pour les plis cruciaux\n• Observez les cartes jouées par les adversaires\n• Adaptez votre stratégie selon le contrat annoncé").data
  | Lang.en =>
    ("**Detailed hand analysis:**\n\n**Detected trumps:**\n• Jack: ").data ++
    checkMark ta.has_jack ++ ("\n• 9: ").data ++ checkMark ta.has_nine ++
    ("\n• Ace: ").data ++ checkMark ta.has_ace ++ ("\n• 10: ").data ++
    checkMark ta.has_ten ++ ("\n• Complete trumps: ").data ++
    checkMark ta.complete_trumps ++
    ("\n\n**Color distribution:**\n• Number of colors: ").data ++
    (Nat.repr ca.color_count).data ++ ("\n• Identified colors: ").data ++
    joinedColors ca.colors ("Not specified").data ++
    ("\n\n**Strategic recommendations:**\n• Keep your trumps for crucial tricks\n• Observe cards played by opponents\n• Adapt your strategy according to announced contract").data

/-- The `HandEvaluation` dataclass. -/
structure HandEvaluation where
  recommended_announcement : Nat
  confidence : ℚ
  reasoning : List Char
  alternative_options : List Nat
  detailed_analysis : List Char

/-- `EnhancedHandEvaluator.evaluate_hand_advanced`. -/
def evaluate_hand_advanced (description : List Char) (language : Lang) :
    HandEvaluation :=
  let description_lower := pyLower description
  let trump_analysis := analyze_trumps description_lower
  let color_analysis := analyze_colors description_lower
  let recommendation := determine_recommendation trump_analysis color_analysis
  { recommended_announcement := recommendation.points
    confidence := recommendation.confidence
    reasoning := recommendation.reasoning
    alternative_options := recommendation.alternatives
    detailed_analysis :=
      generate_detailed_analysis trump_analysis color_analysis language }

/-- Modelled from the spec: the decision table of §4.5, evaluated
highest-value-first, returning (recommendation, confidence).  This definition
follows the spec's words and is compared against the source's
`determine_recommendation`. -/
def spec_decision_table (complete : Bool) (trumpCount colorCount : Nat) :
    Nat × ℚ :=
  if complete ∧ 6 ≤ trumpCount then (140, 0.85)
  else if complete ∧ colorCount ≤ 2 then (130, 0.90)
  else if complete ∧ colorCount ≤ 3 then (120, 0.85)
  else if complete then (110, 0.90)
  else if 3 ≤ trumpCount then (100, 0.70)
  else (90, 0.60)

/-! ## Query normalizer (`LanguageProcessor.normalize_query`)

The nine substitution regexes per language are embedded as alternation lists of
atom sequences (`\s*` and `\s+` as explicit atoms, `x?` as an optional
character, `(?:word\s*)?` as an optional word).  The inner alternation of
`calcul\s*(?:de\s*)?(?:score|point)s?` is expanded into two top-level
alternatives; for these patterns the expansion selects the same match spans as
Python's backtracking order, because the two alternatives can never both match
at one position. -/

/-- One atom of a substitution pattern. -/
inductive SubAtom where
  | lit (c : Char)
  | optC (c : Char)
  | ws0
  | ws1
  | optW (w : List Char)

/-- Literal word as a run of `lit` atoms. -/
def subLits (s : String) : List SubAtom := s.data.map SubAtom.lit

/-- Match an atom sequence at the start of `s`, returning the number of
characters consumed under Python's preferences (greedy `\s*`/`\s+`/`x?`,
group-taken preferred, with backtracking).  Structural fuel; every recursive
call decreases `ts.length + s.length`, so the wrapper's fuel is ample. -/
def matchSubF : Nat → List SubAtom → List Char → Option Nat
  | 0, _, _ => none
  | _ + 1, [], _ => some 0
  | _ + 1, SubAtom.lit _ :: _, [] => none
  | fuel + 1, SubAtom.lit c :: ts, x :: xs =>
    if x = c then (matchSubF fuel ts xs).map (· + 1) else none
  | fuel + 1, SubAtom.optC _ :: ts, [] => matchSubF fuel ts []
  | fuel + 1, SubAtom.optC c :: ts, x :: xs =>
    if x = c then
      match matchSubF fuel ts xs with
      | some n => some (n + 1)
      | none => matchSubF fuel ts (x :: xs)
    else matchSubF fuel ts (x :: xs)
  | fuel + 1, SubAtom.ws0 :: ts, [] => matchSubF fuel ts []
  | fuel + 1, SubAtom.ws0 :: ts, x :: xs =>
    if isPySpace x then
      match matchSubF fuel (SubAtom.ws0 :: ts) xs with
      | some n => some (n + 1)
      | none => matchSubF fuel ts (x :: xs)
    else matchSubF fuel ts (x :: xs)
  | _ + 1, SubAtom.ws1 :: _, [] => none
  | fuel + 1, SubAtom.ws1 :: ts, x :: xs =>
    if isPySpace x then (matchSubF fuel (SubAtom.ws0 :: ts) xs).map (· + 1)
    else none
  | fuel + 1, SubAtom.optW w :: ts, s =>
    if w.isEmpty then matchSubF fuel ts s
    else if w.isPrefixOf s then
      match matchSubF fuel (SubAtom.ws0 :: ts) (s.drop w.length) with
      | some n => some (n + w.length)
      | none => matchSubF fuel ts s
    else matchSubF fuel ts s

/-- Try the pattern's alternatives in order at the start of `s` (Python tries
`|` branches left to right). -/
def tryAlts (alts : List (List SubAtom)) (s : List Char) : Option Nat :=
  match alts with
  | [] => none
  | alt :: rest =>
    match matchSubF (alt.length + s.length + 1) alt s with
    | some n => some n
    | none => tryAlts rest s

/-- `re.sub(pattern, repl, s)`: scan left to right, replace each leftmost
non-overlapping match.  None of the source's patterns can match the empty
string, so a zero-length match is treated as no match at this position. -/
def pySubF (pat : List (List SubAtom)) (repl : List Char) :
    Nat → List Char → List Char
  | 0, s => s
  | _ + 1, [] => []
  | fuel + 1, c :: rest =>
    match tryAlts pat (c :: rest) with
    | some (n + 1) => repl ++ pySubF pat repl fuel (rest.drop n)
    | _ => c :: pySubF pat repl fuel rest

/-- `re.sub` wrapper with ample fuel. -/
def pySub (pat : List (List SubAtom)) (repl : List Char) (s : List Char) :
    List Char :=
  pySubF pat repl (s.length + 1) s

/-- `LanguageProcessor.common_variations`, in source (insertion) order:
pattern alternatives together with the replacement string. -/
def common_variations (language : Lang) :
    List (List (List SubAtom) × List Char) :=
  match language with
  | Lang.fr =>
    [ ([subLits "règl" ++ [SubAtom.optC 'e', SubAtom.ws0, SubAtom.lit 'd',
        SubAtom.optC '\''] ++ subLits "annonc" ++
        [SubAtom.optC 'e', SubAtom.optC 's']], ("règles annonces").data),
      ([subLits "comment" ++ [SubAtom.ws1] ++ subLits "annoncer"],
        ("comment annoncer").data),
      ([subLits "quand" ++ [SubAtom.ws1] ++ subLits "annoncer"],
        ("quand annoncer").data),
      ([subLits "qu" ++ [SubAtom.optC 'e', SubAtom.ws1] ++ subLits "annoncer"],
        ("que annoncer").data),
      ([subLits "calcul" ++ [SubAtom.ws0, SubAtom.optW ("de").data] ++
          subLits "score" ++ [SubAtom.optC 's'],
        subLits "calcul" ++ [SubAtom.ws0, SubAtom.optW ("de").data] ++
          subLits "point" ++ [SubAtom.optC 's']], ("calcul score").data),
      ([subLits "belote" ++ [SubAtom.ws0, SubAtom.optW ("et").data] ++
        subLits "rebelote"], ("belote rebelote").data),
      ([subLits "roi" ++ [SubAtom.ws0, SubAtom.optW ("et").data] ++
        subLits "dame"], ("roi dame").data),
      ([subLits "multiplicateur", subLits "coinche"], ("coinche").data),
      ([subLits "tous" ++ [SubAtom.ws0, SubAtom.optW ("les").data] ++
        subLits "plis"], ("capot").data) ]
  | Lang.en =>
    [ ([subLits "announcemen" ++ [SubAtom.optC 't', SubAtom.ws0] ++
        subLits "rule" ++ [SubAtom.optC 's']], ("announcement rules").data),
      ([subLits "how" ++ [SubAtom.ws1] ++ subLits "to" ++ [SubAtom.ws1] ++
        subLits "announce"], ("how to announce").data),
      ([subLits "when" ++ [SubAtom.ws1] ++ subLits "to" ++ [SubAtom.ws1] ++
        subLits "announce"], ("when to announce").data),
      ([subLits "what" ++ [SubAtom.ws1] ++ subLits "to" ++ [SubAtom.ws1] ++
        subLits "announce"], ("what to announce").data),
      ([subLits "scor" ++ [SubAtom.optC 'e', SubAtom.ws0] ++
        subLits "calculation"], ("score calculation").data),
      ([subLits "belote" ++ [SubAtom.ws0, SubAtom.optW ("and").data] ++
        subLits "rebelote"], ("belote rebelote").data),
      ([subLits "king" ++ [SubAtom.ws0, SubAtom.optW ("and").data] ++
        subLits "queen"], ("king queen").data),
      ([subLits "multiplier", subLits "coinche"], ("coinche").data),
      ([subLits "all" ++ [SubAtom.ws0] ++ subLits "tricks"], ("capot").data) ]

/-- The substitution pass of `normalize_query`: apply the nine substitutions
in order. -/
def applySubs (language : Lang) (s : List Char) : List Char :=
  (common_variations language).foldl (fun acc pr => pySub pr.1 pr.2 acc) s

/-- `LanguageProcessor.normalize_query`: lower-case, strip, then the
substitution pass (the `re.IGNORECASE` flag is immaterial on the lower-cased
input). -/
def normalize_query (query : List Char) (language : Lang) : List Char :=
  applySubs language (pyStrip (pyLower query))

/-! ## Keyword extraction and intent (`LanguageProcessor.extract_keywords`,
`EnhancedSofieneAI.extract_intent_enhanced`) -/

/-- Split into maximal runs of word characters — `re.findall(r'\b\w+\b', s)`. -/
def wordsAux (cur : List Char) : List Char → List (List Char)
  | [] => if cur.isEmpty then [] else [cur.reverse]
  | c :: rest =>
    if isWordChar c then wordsAux (c :: cur) rest
    else if cur.isEmpty then wordsAux [] rest
    else cur.reverse :: wordsAux [] rest

/-- All `\b\w+\b` matches of `s`. -/
def wordsOf (s : List Char) : List (List Char) := wordsAux [] s

/-- `LanguageProcessor.french_synonyms`. -/
def french_synonyms : List (List Char × List (List Char)) :=
  [ (("annonce").data, [("annonce").data, ("contrat").data, ("enchère").data,
      ("déclaration").data, ("offre").data, ("bid").data]),
    (("règle").data, [("règle").data, ("regle").data, ("loi").data,
      ("norme").data, ("principe").data, ("rule").data]),
    (("recommandation").data, [("recommandation").data, ("conseil").data,
      ("suggestion").data, ("avis").data, ("guide").data]),
    (("calculer").data, [("calculer").data, ("compter").data,
      ("évaluer").data, ("mesurer").data, ("déterminer").data]),
    (("score").data, [("score").data, ("point").data, ("résultat").data,
      ("total").data, ("comptage").data]),
    (("belote").data, [("belote").data, ("rebelote").data, ("roi").data,
      ("dame").data, ("king").data, ("queen").data]),
    (("atout").data, [("atout").data, ("trump").data, ("couleur").data,
      ("suite").data]),
    (("capot").data, [("capot").data, ("tous").data, ("plis").data,
      ("tricks").data, ("all").data]),
    (("coinche").data, [("coinche").data, ("surcoinche").data,
      ("multiplicateur").data, ("doubler").data]) ]

/-- `LanguageProcessor.english_synonyms`. -/
def english_synonyms : List (List Char × List (List Char)) :=
  [ (("announce").data, [("announce").data, ("bid").data, ("contract").data,
      ("declare").data, ("call").data]),
    (("rule").data, [("rule").data, ("law").data, ("regulation").data,
      ("principle").data, ("guideline").data]),
    (("recommendation").data, [("recommendation").data, ("advice").data,
      ("suggestion").data, ("tip").data, ("guide").data]),
    (("calculate").data, [("calculate").data, ("count").data,
      ("compute").data, ("evaluate").data, ("determine").data]),
    (("score").data, [("score").data, ("points").data, ("result").data,
      ("total").data, ("count").data]),
    (("belote").data, [("belote").data, ("rebelote").data, ("king").data,
      ("queen").data, ("roi").data, ("dame").data]),
    (("trump").data, [("trump").data, ("atout").data, ("suit").data,
      ("color").data]),
    (("capot").data, [("capot").data, ("all").data, ("tricks").data,
      ("tous").data, ("plis").data]),
    (("coinche").data, [("coinche").data, ("surcoinche").data,
      ("multiplier").data, ("double").data]) ]

/-- The per-language synonym dictionary selected by `extract_keywords`. -/
def synonymsDict (language : Lang) : List (List Char × List (List Char)) :=
  match language with
  | Lang.fr => french_synonyms
  | Lang.en => english_synonyms

/-- `LanguageProcessor.extract_keywords`: normalized words plus, for each word
found in a synonym list, that whole synonym list.  The Python value is a
`set`; this list represents it up to membership. -/
def extract_keywords (query : List Char) (language : Lang) :
    List (List Char) :=
  let normalized := normalize_query query language
  let words := wordsOf normalized
  words ++ words.flatMap (fun w =>
    (synonymsDict language).flatMap (fun kv =>
      if kv.2.contains w then kv.2 else []))

/-- `EnhancedSofieneAI.extract_intent_enhanced` (returns the intent key). -/
def extract_intent_enhanced (query : List Char) (language : Lang) :
    List Char :=
  let keywords := extract_keywords query language
  if [("belote").data, ("rebelote").data, ("roi").data, ("dame").data,
      ("king").data, ("queen").data].any keywords.contains then
    ("belote_rebelote").data
  else if [("coinche").data, ("surcoinche").data, ("multiplicateur").data,
      ("multiplier").data].any keywords.contains then
    ("coinche").data
  else if [("capot").data, ("tous").data, ("plis").data, ("all").data,
      ("tricks").data].any keywords.contains then
    ("capot").data
  else if [("main").data, ("hand").data, ("évaluer").data, ("evaluate").data,
      ("analyser").data, ("analyze").data].any keywords.contains then
    ("hand_evaluation").data
  else if [("annonce").data, ("announcement").data, ("recommandation").data,
      ("recommendation").data].any keywords.contains then
    ("announcement_rules").data
  else if [("score").data, ("calcul").data, ("calculation").data,
      ("points").data].any keywords.contains then
    ("scoring").data
  else
    ("general").data

/-! ## Search patterns (`handle_enhanced_patterns`)

Each `re.search` pattern of the pattern cascade is an alternation of atom
sequences (inner groups `(?:a|b|…)` are expanded into top-level alternatives —
for the boolean `if re.search(...)` use this expansion is exactly Python's
semantics, since a search succeeds iff some alternative matches somewhere). -/

/-- One atom of a search pattern. -/
inductive SAtom where
  | lit (c : Char)
  | anyc
  | optC (c : Char)
  | dotstar

/-- Literal word as a run of search atoms. -/
def satomsLits (s : String) : List SAtom := s.data.map SAtom.lit

/-- A single-alternative literal pattern. -/
def rxLit (s : String) : List (List SAtom) := [satomsLits s]

/-- An alternation of literal words. -/
def rxAlt (ws : List String) : List (List SAtom) := ws.map satomsLits

/-- `.*`. -/
def rxDS : List (List SAtom) := [[SAtom.dotstar]]

/-- Concatenation of two alternation lists (cartesian product). -/
def rxCat (a b : List (List SAtom)) : List (List SAtom) :=
  a.flatMap (fun x => b.map (fun y => x ++ y))

/-- Concatenation of a sequence of alternation lists. -/
def rxSeq (l : List (List (List SAtom))) : List (List SAtom) :=
  l.foldr rxCat [[]]

/-- Does the atom sequence match a prefix of `s`?  (Existential over the
choices of `.`-star extents and optional characters.)  Structural fuel; each
call decreases `ts.length + s.length`. -/
def smatchF : Nat → List SAtom → List Char → Bool
  | 0, _, _ => false
  | _ + 1, [], _ => true
  | _ + 1, SAtom.lit _ :: _, [] => false
  | fuel + 1, SAtom.lit c :: ts, x :: xs => x = c && smatchF fuel ts xs
  | _ + 1, SAtom.anyc :: _, [] => false
  | fuel + 1, SAtom.anyc :: ts, _ :: xs => smatchF fuel ts xs
  | fuel + 1, SAtom.optC _ :: ts, [] => smatchF fuel ts []
  | fuel + 1, SAtom.optC c :: ts, x :: xs =>
    (x = c && smatchF fuel ts xs) || smatchF fuel ts (x :: xs)
  | fuel + 1, SAtom.dotstar :: ts, [] => smatchF fuel ts []
  | fuel + 1, SAtom.dotstar :: ts, x :: xs =>
    smatchF fuel ts (x :: xs) || smatchF fuel (SAtom.dotstar :: ts) xs

/-- Atom-sequence prefix match with ample fuel. -/
def smatch (ts : List SAtom) (s : List Char) : Bool :=
  smatchF (ts.length + s.length + 1) ts s

/-- `re.search` truthiness: some alternative matches at some position. -/
def reSearch (alts : List (List SAtom)) : List Char → Bool
  | [] => alts.any (fun a => smatch a [])
  | c :: rest => alts.any (fun a => smatch a (c :: rest)) || reSearch alts rest

/-! ## Point extraction (`extract_points_from_query`) -/

/-- The alternatives of `r'\b(90|100|110|120|130|140)\b'` in source order,
paired with their integer values. -/
def pointAlts : List (List Char × Nat) :=
  [(("90").data, 90), (("100").data, 100), (("110").data, 110),
   (("120").data, 120), (("130").data, 130), (("140").data, 140)]

/-- `\b` before the (digit-initial) alternative: previous character absent or
not a word character. -/
def boundaryBefore (prev : Option Char) : Bool :=
  match prev with
  | none => true
  | some p => !(isWordChar p)

/-- `\b` after the (digit-final) alternative: next character absent or not a
word character. -/
def boundaryAfter (s : List Char) : Bool :=
  match s with
  | [] => true
  | c :: _ => !(isWordChar c)

/-- Try the bounded alternation at the current position: value and matched
length of the first alternative that matches with both boundaries. -/
def pointAltHere (prev : Option Char) (s : List Char) : Option (Nat × Nat) :=
  if boundaryBefore prev then
    (pointAlts.filter
        (fun pr => pr.1.isPrefixOf s && boundaryAfter (s.drop pr.1.length))).head?.map
      (fun pr => (pr.2, pr.1.length))
  else none

/-- `re.findall` scan for the point alternation: left to right, non
overlapping, tracking the previous character for `\b`. -/
def scanPointsF : Nat → Option Char → List Char → List Nat
  | 0, _, _ => []
  | _ + 1, _, [] => []
  | fuel + 1, prev, c :: rest =>
    match pointAltHere prev (c :: rest) with
    | some (v, len) =>
      v :: scanPointsF fuel (some ((c :: rest).getD (len - 1) c))
        ((c :: rest).drop len)
    | none => scanPointsF fuel (some c) rest

/-- `EnhancedSofieneAI.extract_points_from_query` (its argument is the already
lower-cased, stripped query). -/
def extract_points_from_query (query : List Char) : List Nat :=
  scanPointsF (query.length + 1) none query

/-- Does some alternative of the point regex occur anywhere in `s` with both
word boundaries (`prev` being the character before `s`)?  `false` formalises
"the query's only numeric content lies outside {90,…,140}": any in-set value
occurring as a standalone digit run would be such an occurrence. -/
def hasBoundaryAlt (prev : Option Char) : List Char → Bool
  | [] => false
  | c :: rest =>
    (pointAltHere prev (c :: rest)).isSome || hasBoundaryAlt (some c) rest

/-! ## Rule corpus (`ComprehensiveRulesDatabase`)

Note on the source text: the file as shipped has a `SyntaxError` at line 75 —
the raw string `r'règle?\s*d[\'']?annonce?s?'` is terminated early by the
quote following the escaped quote, so Python cannot import the module at all.
The evidently intended literal (an optional-apostrophe character class,
exactly what the surrounding revisions use) is the reading embedded here and
in `common_variations` above; nothing else in the file is affected. -/

/-- A rule record of the corpus (`query_variations_*` default to `[]` via
`rule.get(...)` in the source). -/
structure RuleRec where
  id : List Char
  category : List Char
  title_fr : List Char
  title_en : List Char
  content_fr : List Char
  content_en : List Char
  keywords_fr : List (List Char)
  keywords_en : List (List Char)
  query_variations_fr : List (List Char)
  query_variations_en : List (List Char)
deriving DecidableEq

/-! ## Literal text constants, transcribed mechanically from the source -/

/-- Rule record `announcement_rules_complete` of `ComprehensiveRulesDatabase`. -/
def rule_announcement_rules_complete : RuleRec :=
  { id := ("announcement_rules_complete").data
    category := ("announcements").data
    title_fr := ("📢 Règles Complètes des Annonces").data
    title_en := ("📢 Complete Announcement Rules").data
    content_fr := ("**Système complet des annonces officielles:**\n\n**90 points:**\n• **Critère officiel:** 2 As minimum\n• Configuration de base acceptable\n• Stratégie défensive recommandée\n\n**100 points:**\n• **Critère officiel:** \"Généralement comme tu veux\"\n• Flexibilité maximale dans la composition\n• Main équilibrée appréciée\n\n**110 points:**\n• **CRITÈRE OBLIGATOIRE:** Atouts Complets\n• Être sûr de collecter toutes les cartes d\x27atout dès le début\n• **Configuration requise:** (Valet, 9, As, 10) minimum\n• **Alternative:** (Valet, 9, As, 2+ autres cartes d\x27atout)\n\n**120 points:**\n• **CRITÈRE STRICT:** Maximum 3 couleurs à la main + Atouts Complets\n• Les 3 couleurs peuvent être: cœurs, trèfle, carreau (+ atout)\n• **Cas particulier:** 6 cartes d\x27atout (dont Valet + 9) + 2 cartes de couleurs différentes\n\n**130 points:**\n• **CRITÈRE TRÈS STRICT:** Maximum 2 couleurs à la main + Atouts Complets\n• **Cas particulier:** 6 cartes d\x27atout (dont Valet + 9) + 2 cartes même couleur ≠ atout\n\n**140 points:**\n• **CRITÈRE EXTRÊME:** L\x27adversaire ne peut avoir qu\x27un seul pli maximum\n• Main quasi-parfaite obligatoire\n• Risque très élevé").data
    content_en := ("**Complete official announcement system:**\n\n**90 points:**\n• **Official criterion:** Minimum 2 Aces\n• Basic acceptable configuration\n• Defensive strategy recommended\n\n**100 points:**\n• **Official criterion:** \"Generally as you wish\"\n• Maximum flexibility in composition\n• Balanced hand appreciated\n\n**110 points:**\n• **MANDATORY CRITERION:** Complete Trumps\n• Must be sure to collect all trump cards from start\n• **Required configuration:** (Jack, 9, Ace, 10) minimum\n• **Alternative:** (Jack, 9, Ace, 2+ other trump cards)\n\n**120 points:**\n• **STRICT CRITERION:** Maximum 3 colors in hand + Complete Trumps\n• The 3 colors can be: hearts, clubs, diamonds (+ trump)\n• **Special case:** 6 trump cards (including Jack + 9) + 2 cards of different colors\n\n**130 points:**\n• **VERY STRICT CRITERION:** Maximum 2 colors in hand + Complete Trumps\n• **Special case:** 6 trump cards (including Jack + 9) + 2 cards same color ≠ trump\n\n**140 points:**\n• **EXTREME CRITERION:** Opponent can have maximum one trick\n• Near-perfect hand mandatory\n• Very high risk").data
    keywords_fr := [("annonce").data, ("règle").data, ("regle").data, ("recommandation").data, ("90").data, ("100").data, ("110").data, ("120").data, ("130").data, ("140").data, ("atouts").data, ("complets").data, ("couleurs").data, ("officiel").data, ("comment").data, ("quand").data, ("que").data]
    keywords_en := [("announcement").data, ("rule").data, ("recommendation").data, ("90").data, ("100").data, ("110").data, ("120").data, ("130").data, ("140").data, ("trumps").data, ("complete").data, ("colors").data, ("official").data, ("how").data, ("when").data, ("what").data]
    query_variations_fr := [("règle annonce").data, ("regle annonce").data, ("règles annonces").data, ("comment annoncer").data, ("quand annoncer").data, ("que annoncer").data, ("recommandation annonce").data, ("critère annonce").data, ("annonce 90").data, ("annonce 100").data, ("annonce 110").data, ("annonce 120").data, ("annonce 130").data, ("annonce 140").data]
    query_variations_en := [("announcement rule").data, ("announce rule").data, ("bidding rule").data, ("how to announce").data, ("when to announce").data, ("what to announce").data, ("announcement recommendation").data, ("announcement criteria").data, ("announce 90").data, ("announce 100").data, ("announce 110").data, ("announce 120").data, ("announce 130").data, ("announce 140").data] }

/-- Rule record `scoring_system_complete` of `ComprehensiveRulesDatabase`. -/
def rule_scoring_system_complete : RuleRec :=
  { id := ("scoring_system_complete").data
    category := ("scoring").data
    title_fr := ("🔢 Système de Calcul Complet").data
    title_en := ("🔢 Complete Scoring System").data
    content_fr := ("**Système officiel de calcul des scores:**\n\n**Points totaux possibles par manche:**\n• Points des cartes: 152\n• Dix de der (dernier pli): +10 points\n• **Total possible: 162 points**\n\n**Système de score spécial pour équipe non-preneuse:**\nSi score = 10×K + x:\n• Si x ∈ [5,6,7] → Score final = 10×(K+1)\n• Sinon → Score final = 10×K\n• Autre équipe: 160 - score calculé\n\n**Belote/Rebelote:**\n• +20 points si Roi et Dame d\x27atout chez même joueur\n• Annonce obligatoire pour obtenir les points\n\n**Échec de contrat:**\n• Équipe preneuse: 0 points\n• Équipe adverse: 160 + 20×(bonus belote)\n\n**Capot (tous les plis):**\n• 250 points automatiques\n• Si dans contrat: DOIT faire tous les plis\n\n**Coinche & Surcoinche:**\n• Contrat simple: ×1\n• Coinché: ×2\n• Surcoinché: ×4\n\n**Fin de partie:**\n• Premier à 1001 points remporte\n• Alternative: 2000 points selon accord").data
    content_en := ("**Official scoring system:**\n\n**Total possible points per round:**\n• Card points: 152\n• Ten of last (last trick): +10 points\n• **Total possible: 162 points**\n\n**Special scoring system for non-taking team:**\nIf score = 10×K + x:\n• If x ∈ [5,6,7] → Final score = 10×(K+1)\n• Otherwise → Final score = 10×K\n• Other team: 160 - calculated score\n\n**Belote/Rebelote:**\n• +20 points if King and Queen of trump with same player\n• Announcement mandatory to get points\n\n**Contract failure:**\n• Taking team: 0 points\n• Opposing team: 160 + 20×(belote bonus)\n\n**Capot (all tricks):**\n• 250 automatic points\n• If in contract: MUST make all tricks\n\n**Coinche & Surcoinche:**\n• Simple contract: ×1\n• Coinched: ×2\n• Surcoinched: ×4\n\n**Game end:**\n• First to 1001 points wins\n• Alternative: 2000 points by agreement").data
    keywords_fr := [("score").data, ("calcul").data, ("points").data, ("système").data, ("comptage").data, ("total").data, ("belote").data, ("rebelote").data, ("capot").data, ("coinche").data, ("fin").data]
    keywords_en := [("score").data, ("calculation").data, ("points").data, ("system").data, ("counting").data, ("total").data, ("belote").data, ("rebelote").data, ("capot").data, ("coinche").data, ("end").data]
    query_variations_fr := [("calcul score").data, ("calcul point").data, ("calculer points").data, ("système score").data, ("comptage").data, ("total points").data, ("comment compter").data, ("score final").data]
    query_variations_en := [("score calculation").data, ("point calculation").data, ("calculate points").data, ("scoring system").data, ("counting").data, ("total points").data, ("how to count").data, ("final score").data] }

/-- Rule record `partner_points_system` of `ComprehensiveRulesDatabase`. -/
def rule_partner_points_system : RuleRec :=
  { id := ("partner_points_system").data
    category := ("scoring").data
    title_fr := ("🤝 Système d\x27Ajout de Points au Partenaire").data
    title_en := ("🤝 Partner Point Addition System").data
    content_fr := ("**Système officiel d\x27ajout de points au partenaire:**\n\n**Premier tour - Points d\x27atout:**\n• **Avec Valet ou 9 d\x27atout:** (nombre de cartes d\x27atout - 1) × 10 points\n• **Avec Valet seul:** +10 points\n• **Sans Valet ni 9:** +10 points si 3 atouts minimum\n• **Sinon:** Aucun ajout\n\n**Deuxième tour - Points d\x27As:**\n• **Ajout:** (nombre d\x27As × 10) points\n• **Série consécutive commençant par As:** +20 points\n  - Exemple: As-10-Roi = +20 points supplémentaires\n\n**Troisième tour - Capot (très rare):**\n• On cherche un capot potentiel\n• **Ajout si:**\n  - Vous avez des 10\n  - Vous pouvez couper des couleurs avec vos atouts\n• Évaluation situationnelle\n\n**Exemples pratiques:**\n• Main: Valet♠ 9♠ As♠ 7♠ + 4 autres → (4-1)×10 = 30 points\n• Main: As♥ As♦ 10♥ → 2×10 = 20 points + série possible\n• Main: As♣ 10♣ Roi♣ → 10 + 20 (série) = 30 points").data
    content_en := ("**Official partner point addition system:**\n\n**First round - Trump points:**\n• **With Jack or 9 of trump:** (number of trump cards - 1) × 10 points\n• **With Jack alone:** +10 points\n• **Without Jack or 9:** +10 points if 3+ trumps\n• **Otherwise:** No addition\n\n**Second round - Ace points:**\n• **Addition:** (number of Aces × 10) points\n• **Consecutive series starting with Ace:** +20 points\n  - Example: Ace-10-King = +20 additional points\n\n**Third round - Capot (very rare):**\n• Looking for potential capot\n• **Addition if:**\n  - You have 10s\n  - You can cut colors with your trumps\n• Situational evaluation\n\n**Practical examples:**\n• Hand: Jack♠ 9♠ Ace♠ 7♠ + 4 others → (4-1)×10 = 30 points\n• Hand: Ace♥ Ace♦ 10♥ → 2×10 = 20 points + possible series\n• Hand: Ace♣ 10♣ King♣ → 10 + 20 (series) = 30 points").data
    keywords_fr := [("partenaire").data, ("ajout").data, ("points").data, ("valet").data, ("as").data, ("série").data, ("atout").data, ("tour").data, ("calcul").data]
    keywords_en := [("partner").data, ("addition").data, ("points").data, ("jack").data, ("ace").data, ("series").data, ("trump").data, ("round").data, ("calculation").data]
    query_variations_fr := [("ajout points partenaire").data, ("points partenaire").data, ("calcul partenaire").data, ("système partenaire").data, ("bonus partenaire").data]
    query_variations_en := [("partner points addition").data, ("partner points").data, ("partner calculation").data, ("partner system").data, ("partner bonus").data] }

/-- Rule record `coinche_system_detailed` of `ComprehensiveRulesDatabase`. -/
def rule_coinche_system_detailed : RuleRec :=
  { id := ("coinche_system_detailed").data
    category := ("coinche").data
    title_fr := ("🎯 Système Coinche & Surcoinche Détaillé").data
    title_en := ("🎯 Detailed Coinche & Surcoinche System").data
    content_fr := ("**Système officiel Coinche & Surcoinche:**\n\n**Définitions:**\n• **Coinche:** Doubler les enjeux d\x27un contrat adverse\n• **Surcoinche:** Re-doubler après une coinche\n\n**Multiplicateurs:**\n• **Contrat simple:** ×1 (normal)\n• **Contrat coinché:** ×2\n• **Contrat surcoinché:** ×4\n\n**Quand coincher:**\n• Vous pensez que l\x27adversaire va chuter\n• Votre main est forte contre leur annonce\n• Vous avez des atouts dans leur couleur\n\n**Risques et gains:**\n• **Si adversaire chute:** Vous gagnez le double/quadruple\n• **Si adversaire réussit:** Il gagne le double/quadruple\n\n**Stratégie:**\n• Coinchez uniquement si très confiant\n• Attention aux contrats 90-100 (plus faciles)\n• Évitez de coincher les mains exceptionnelles\n\n**Exemples:**\n• Contrat 110♠ coinché qui chute: 110×2 = 220 points\n• Contrat 120♥ surcoinché réussi: 120×4 = 480 points\n\n**Conseil d\x27expert:**\nLa coinche est une arme à double tranchant - utilisez-la avec parcimonie!").data
    content_en := ("**Official Coinche & Surcoinche system:**\n\n**Definitions:**\n• **Coinche:** Double the stakes of an opponent\x27s contract\n• **Surcoinche:** Re-double after a coinche\n\n**Multipliers:**\n• **Simple contract:** ×1 (normal)\n• **Coinched contract:** ×2\n• **Surcoinched contract:** ×4\n\n**When to coinche:**\n• You think opponent will fail\n• Your hand is strong against their announcement\n• You have trumps in their suit\n\n**Risks and gains:**\n• **If opponent fails:** You win double/quadruple\n• **If opponent succeeds:** They win double/quadruple\n\n**Strategy:**\n• Only coinche if very confident\n• Beware of 90-100 contracts (easier)\n• Avoid coinching exceptional hands\n\n**Examples:**\n• 110♠ contract coinched that fails: 110×2 = 220 points\n• 120♥ contract surcoinched that succeeds: 120×4 = 480 points\n\n**Expert advice:**\nCoinche is a double-edged sword - use it sparingly!").data
    keywords_fr := [("coinche").data, ("surcoinche").data, ("multiplicateur").data, ("doubler").data, ("enjeux").data, ("stratégie").data, ("risque").data]
    keywords_en := [("coinche").data, ("surcoinche").data, ("multiplier").data, ("double").data, ("stakes").data, ("strategy").data, ("risk").data]
    query_variations_fr := [("coinche surcoinche").data, ("multiplicateur").data, ("doubler contrat").data, ("quand coincher").data, ("stratégie coinche").data]
    query_variations_en := [("coinche surcoinche").data, ("multiplier").data, ("double contract").data, ("when to coinche").data, ("coinche strategy").data] }

/-- Rule record `belote_rebelote_detailed` of `ComprehensiveRulesDatabase`. -/
def rule_belote_rebelote_detailed : RuleRec :=
  { id := ("belote_rebelote_detailed").data
    category := ("bonus").data
    title_fr := ("👑 Belote & Rebelote - Guide Complet").data
    title_en := ("👑 Belote & Rebelote - Complete Guide").data
    content_fr := ("**Guide complet Belote & Rebelote:**\n\n**Définition officielle:**\n• Avoir le Roi ET la Dame d\x27atout chez le même joueur\n• Bonus: +20 points à l\x27équipe\n• **Annonce OBLIGATOIRE** pour obtenir les points\n\n**Procédure d\x27annonce:**\n1. Annoncez \"Belote\" en jouant la première carte (Roi ou Dame)\n2. Annoncez \"Rebelote\" en jouant la seconde carte\n3. L\x27ordre Roi→Dame ou Dame→Roi n\x27importe pas\n\n**Règles importantes:**\n• Si oubli d\x27annoncer = PAS de bonus (0 points)\n• Peut être joué à tout moment du jeu\n• Valable uniquement si les deux cartes chez même joueur\n• Ne peut pas être coinché/surcoinché\n\n**Stratégies d\x27utilisation:**\n• **Conservation:** Gardez pour moments cruciaux\n• **Timing:** Jouez au bon moment pour remporter plis importants\n• **Coordination:** Informez discrètement votre partenaire\n• **Psychological:** Peut déstabiliser les adversaires\n\n**Impact sur le score:**\n• +20 points comptent dans le calcul final\n• Peut faire la différence dans un contrat serré\n• Compte même en cas de chute de contrat\n\n**Exemples tactiques:**\n• Utilisez pour prendre un pli de 10\n• Gardez pour couper une couleur forte adverse\n• Jouez en fin de partie pour sécuriser la victoire").data
    content_en := ("**Complete Belote & Rebelote guide:**\n\n**Official definition:**\n• Having King AND Queen of trump with same player\n• Bonus: +20 points to the team\n• **MANDATORY announcement** to get points\n\n**Announcement procedure:**\n1. Announce \"Belote\" when playing first card (King or Queen)\n2. Announce \"Rebelote\" when playing second card\n3. King→Queen or Queen→King order doesn\x27t matter\n\n**Important rules:**\n• If forgotten to announce = NO bonus (0 points)\n• Can be played anytime during game\n• Valid only if both cards with same player\n• Cannot be coinched/surcoinched\n\n**Usage strategies:**\n• **Conservation:** Keep for crucial moments\n• **Timing:** Play at right time to win important tricks\n• **Coordination:** Discretely inform your partner\n• **Psychological:** Can destabilize opponents\n\n**Score impact:**\n• +20 points count in final calculation\n• Can make difference in tight contract\n• Counts even if contract fails\n\n**Tactical examples:**\n• Use to take a trick with 10\n• Keep to cut strong opponent suit\n• Play late game to secure victory").data
    keywords_fr := [("belote").data, ("rebelote").data, ("roi").data, ("dame").data, ("atout").data, ("bonus").data, ("20").data, ("points").data, ("annoncer").data, ("utiliser").data, ("stratégie").data]
    keywords_en := [("belote").data, ("rebelote").data, ("king").data, ("queen").data, ("trump").data, ("bonus").data, ("20").data, ("points").data, ("announce").data, ("use").data, ("strategy").data]
    query_variations_fr := [("belote rebelote").data, ("roi dame atout").data, ("bonus 20 points").data, ("quand utiliser belote").data, ("comment belote").data, ("stratégie belote").data]
    query_variations_en := [("belote rebelote").data, ("king queen trump").data, ("bonus 20 points").data, ("when use belote").data, ("how belote").data, ("belote strategy").data] }

/-- Rule record `capot_rules_complete` of `ComprehensiveRulesDatabase`. -/
def rule_capot_rules_complete : RuleRec :=
  { id := ("capot_rules_complete").data
    category := ("capot").data
    title_fr := ("🏆 Règles Complètes du Capot").data
    title_en := ("🏆 Complete Capot Rules").data
    content_fr := ("**Règles officielles du Capot:**\n\n**Définition:**\n• Faire TOUS les plis (8 plis sur 8)\n• Score automatique: 250 points\n• Remplace le calcul normal des points\n\n**Types de Capot:**\n\n**1. Capot dans le contrat:**\n• Annonce explicite: \"Capot Cœur\"\n• **OBLIGATION:** Doit faire TOUS les plis\n• Si échoue (même 7 plis sur 8): Chute totale\n• Si réussit: 250 points\n\n**2. Capot surprise:**\n• Non annoncé mais réalisé\n• Remplace automatiquement le contrat initial\n• 250 points garantis\n\n**Stratégies pour le Capot:**\n\n**Conditions favorables:**\n• Main exceptionnelle avec nombreux atouts\n• Contrôle de plusieurs couleurs\n• Partenaire fort probable\n\n**Risques:**\n• Très difficile à réaliser\n• Un seul pli perdu = échec total\n• Adversaires vont tout tenter pour prendre 1 pli\n\n**Défense contre le Capot:**\n• Conservez vos cartes fortes\n• Tentez de prendre au moins 1 pli\n• Coordination défensive avec partenaire\n\n**Exemples de mains à Capot:**\n• 6-7 atouts forts + As/10 dans autres couleurs\n• Contrôle total d\x27une couleur + atouts complets\n• Main quasi-parfaite avec domination évidente\n\n**Conseil d\x27expert:**\nLe Capot est spectaculaire mais très risqué - n\x27annoncez que si quasi-certain!").data
    content_en := ("**Official Capot rules:**\n\n**Definition:**\n• Make ALL tricks (8 out of 8)\n• Automatic score: 250 points\n• Replaces normal point calculation\n\n**Types of Capot:**\n\n**1. Capot in contract:**\n• Explicit announcement: \"Capot Hearts\"\n• **OBLIGATION:** Must make ALL tricks\n• If fails (even 7 out of 8): Total failure\n• If succeeds: 250 points\n\n**2. Surprise Capot:**\n• Not announced but achieved\n• Automatically replaces initial contract\n• 250 guaranteed points\n\n**Capot strategies:**\n\n**Favorable conditions:**\n• Exceptional hand with many trumps\n• Control of several suits\n• Probably strong partner\n\n**Risks:**\n• Very difficult to achieve\n• One lost trick = total failure\n• Opponents will try everything for 1 trick\n\n**Defense against Capot:**\n• Keep your strong cards\n• Try to take at least 1 trick\n• Defensive coordination with partner\n\n**Capot hand examples:**\n• 6-7 strong trumps + Ace/10 in other suits\n• Total control of one suit + complete trumps\n• Near-perfect hand with obvious domination\n\n**Expert advice:**\nCapot is spectacular but very risky - only announce if almost certain!").data
    keywords_fr := [("capot").data, ("tous").data, ("plis").data, ("250").data, ("points").data, ("risque").data, ("stratégie").data, ("annoncer").data]
    keywords_en := [("capot").data, ("all").data, ("tricks").data, ("250").data, ("points").data, ("risk").data, ("strategy").data, ("announce").data]
    query_variations_fr := [("capot").data, ("tous les plis").data, ("250 points").data, ("règles capot").data, ("quand capot").data, ("stratégie capot").data, ("risque capot").data]
    query_variations_en := [("capot").data, ("all tricks").data, ("250 points").data, ("capot rules").data, ("when capot").data, ("capot strategy").data, ("capot risk").data] }

/-- `ComprehensiveRulesDatabase.get_all_rules()` in dict (insertion) order. -/
def allRules : List RuleRec :=
  [rule_announcement_rules_complete, rule_scoring_system_complete, rule_partner_points_system, rule_coinche_system_detailed, rule_belote_rebelote_detailed, rule_capot_rules_complete]

/-- `recommendations['fr'][90]` of `get_announcement_recommendation_enhanced`. -/
def recommendation_fr_90 : List Char := ("**📢 Recommandation officielle pour 90 points**\n\n**Critère obligatoire:** 2 As minimum\n\n**Configuration détaillée:**\n• Main relativement faible mais jouable\n• Au moins 2 As dans votre jeu (n\x27importe quelle couleur)\n• Stratégie défensive acceptable\n• Risque modéré\n\n**Exemples de mains conformes:**\n• As♠ As♥ + 6 autres cartes diverses\n• As♦ As♣ + cartes moyennes\n• As♠ As♦ + quelques figures\n\n**💡 Conseil Sofiene:**\nAnnonce sûre et recommandée pour débuter. Idéale quand vous n\x27êtes pas sûr de votre main.").data

/-- `recommendations['fr'][100]` of `get_announcement_recommendation_enhanced`. -/
def recommendation_fr_100 : List Char := ("**📢 Recommandation officielle pour 100 points**\n\n**Critère officiel:** \"Généralement comme tu veux\"\n\n**Configuration détaillée:**\n• Flexibilité maximale dans la composition\n• Main équilibrée recommandée\n• Quelques atouts appréciés mais non obligatoires\n• Liberté totale de choix\n\n**Exemples de mains conformes:**\n• Composition libre avec bon équilibre\n• Mix d\x27atouts et de cartes fortes\n• Main sans critère strict\n\n**💡 Conseil Sofiene:**\nAnnonce flexible parfaite pour s\x27adapter au jeu. Utilisez votre expérience pour juger.").data

/-- `recommendations['fr'][110]` of `get_announcement_recommendation_enhanced`. -/
def recommendation_fr_110 : List Char := ("**📢 Recommandation officielle pour 110 points**\n\n**CRITÈRE OBLIGATOIRE:** Atouts Complets\n\n**Configuration strictement requise:**\n• Être sûr de collecter toutes les cartes d\x27atout dès le début\n• **Option 1:** (Valet, 9, As, 10) d\x27atout minimum\n• **Option 2:** (Valet, 9, As + 2+ autres cartes d\x27atout)\n• Confiance totale dans le contrôle des atouts\n\n**Exemples de mains conformes:**\n• Valet♠ 9♠ As♠ 10♠ + 4 autres cartes\n• Valet♥ 9♥ As♥ Roi♥ Dame♥ + 3 autres\n• Valet♦ 9♦ As♦ 10♦ 8♦ 7♦ + 2 autres\n\n**⚠️ ATTENTION:** Sans atouts complets, échec quasi-certain!\n\n**💡 Conseil Sofiene:**\nNe prenez ce risque que si vous êtes absolument certain de contrôler tous les atouts.").data

/-- `recommendations['fr'][120]` of `get_announcement_recommendation_enhanced`. -/
def recommendation_fr_120 : List Char := ("**📢 Recommandation officielle pour 120 points**\n\n**CRITÈRE OBLIGATOIRE:** Maximum 3 couleurs + Atouts Complets\n\n**Configuration strictement requise:**\n• Seulement 3 couleurs dans votre main (parmi: cœurs, trèfle, carreau, pique)\n• Plus atouts complets d\x27une de ces couleurs\n• Distribution très spécifique\n\n**Cas particulier autorisé:**\n• 6 cartes d\x27atout (dont Valet + 9) obligatoires\n• + 2 cartes de couleurs différentes\n• Pour avoir exactement 3 couleurs à la main\n\n**Exemples de mains conformes:**\n• Valet♠ 9♠ As♠ 10♠ Roi♠ Dame♠ + As♥ + 10♦ (3 couleurs: ♠♥♦)\n• Valet♣ 9♣ As♣ 10♣ 8♣ 7♣ + Roi♠ + Dame♥ (3 couleurs: ♣♠♥)\n\n**💡 Conseil Sofiene:**\nRespectez STRICTEMENT la limite de 3 couleurs! Comptez bien avant d\x27annoncer.").data

/-- `recommendations['fr'][130]` of `get_announcement_recommendation_enhanced`. -/
def recommendation_fr_130 : List Char := ("**📢 Recommandation officielle pour 130 points**\n\n**CRITÈRE TRÈS STRICT:** Maximum 2 couleurs + Atouts Complets\n\n**Configuration exceptionnellement requise:**\n• Seulement 2 couleurs dans votre main\n• Plus atouts complets obligatoires\n• Configuration très rare et risquée\n\n**Cas particulier autorisé:**\n• 6 cartes d\x27atout (dont Valet + 9) obligatoires\n• + 2 cartes de même couleur ≠ atout\n• Pour avoir exactement 2 couleurs à la main\n\n**Exemples de mains conformes:**\n• Valet♠ 9♠ As♠ 10♠ Roi♠ Dame♠ + As♥ + 10♥ (2 couleurs: ♠♥)\n• Valet♦ 9♦ As♦ 10♦ 8♦ 7♦ + Roi♣ + Dame♣ (2 couleurs: ♦♣)\n\n**💡 Conseil Sofiene:**\nConfiguration très restrictive! Soyez absolument certain avant d\x27annoncer.").data

/-- `recommendations['fr'][140]` of `get_announcement_recommendation_enhanced`. -/
def recommendation_fr_140 : List Char := ("**📢 Recommandation officielle pour 140 points**\n\n**CRITÈRE EXTRÊME:** L\x27adversaire ne peut avoir qu\x27un seul pli maximum\n\n**Configuration exceptionnelle requise:**\n• Main quasi-parfaite obligatoire\n• Domination totale du jeu\n• Quasi-certitude de remporter 7 plis sur 8 minimum\n• Contrôle absolu de plusieurs couleurs\n\n**Conditions d\x27annonce:**\n• Main extraordinaire uniquement\n• Expérience de jeu confirmée\n• Évaluation très prudente nécessaire\n\n**⚠️ TRÈS RISQUÉ - RÉSERVÉ AUX EXPERTS**\n\n**💡 Conseil Sofiene:**\nAnnonce exceptionnelle pour mains parfaites. N\x27annoncez que si vous êtes certain à 95%!").data

/-- `recommendations['en'][90]` of `get_announcement_recommendation_enhanced`. -/
def recommendation_en_90 : List Char := ("**📢 Official recommendation for 90 points**\n\n**Mandatory criterion:** Minimum 2 Aces\n\n**Detailed configuration:**\n• Relatively weak but playable hand\n• At least 2 Aces in your game (any suit)\n• Defensive strategy acceptable\n• Moderate risk\n\n**Compliant hand examples:**\n• Ace♠ Ace♥ + 6 other various cards\n• Ace♦ Ace♣ + medium cards\n• Ace♠ Ace♦ + some face cards\n\n**💡 Sofiene\x27s advice:**\nSafe and recommended announcement for beginners. Ideal when unsure about your hand.").data

/-- `recommendations['en'][100]` of `get_announcement_recommendation_enhanced`. -/
def recommendation_en_100 : List Char := ("**📢 Official recommendation for 100 points**\n\n**Official criterion:** \"Generally as you wish\"\n\n**Detailed configuration:**\n• Maximum flexibility in composition\n• Balanced hand recommended\n• Some trumps appreciated but not mandatory\n• Total freedom of choice\n\n**Compliant hand examples:**\n• Free composition with good balance\n• Mix of trumps and strong cards\n• Hand without strict criteria\n\n**💡 Sofiene\x27s advice:**\nFlexible announcement perfect for adapting to the game. Use your experience to judge.").data

/-- `recommendations['en'][110]` of `get_announcement_recommendation_enhanced`. -/
def recommendation_en_110 : List Char := ("**📢 Official recommendation for 110 points**\n\n**MANDATORY CRITERION:** Complete Trumps\n\n**Strictly required configuration:**\n• Must be sure to collect all trump cards from start\n• **Option 1:** (Jack, 9, Ace, 10) of trump minimum\n• **Option 2:** (Jack, 9, Ace + 2+ other trump cards)\n• Total confidence in trump control\n\n**Compliant hand examples:**\n• Jack♠ 9♠ Ace♠ 10♠ + 4 other cards\n• Jack♥ 9♥ Ace♥ King♥ Queen♥ + 3 others\n• Jack♦ 9♦ Ace♦ 10♦ 8♦ 7♦ + 2 others\n\n**⚠️ WARNING:** Without complete trumps, almost certain failure!\n\n**💡 Sofiene\x27s advice:**\nOnly take this risk if absolutely certain of controlling all trumps.").data

/-- `recommendations['en'][120]` of `get_announcement_recommendation_enhanced`. -/
def recommendation_en_120 : List Char := ("**📢 Official recommendation for 120 points**\n\n**MANDATORY CRITERION:** Maximum 3 colors + Complete Trumps\n\n**Strictly required configuration:**\n• Only 3 colors in your hand (among: hearts, clubs, diamonds, spades)\n• Plus complete trumps of one of these colors\n• Very specific distribution\n\n**Authorized special case:**\n• 6 trump cards (including Jack + 9) mandatory\n• + 2 cards of different colors\n• To have exactly 3 colors in hand\n\n**Compliant hand examples:**\n• Jack♠ 9♠ Ace♠ 10♠ King♠ Queen♠ + Ace♥ + 10♦ (3 colors: ♠♥♦)\n• Jack♣ 9♣ Ace♣ 10♣ 8♣ 7♣ + King♠ + Queen♥ (3 colors: ♣♠♥)\n\n**💡 Sofiene\x27s advice:**\nSTRICTLY respect the 3-color limit! Count carefully before announcing.").data

/-- `recommendations['en'][130]` of `get_announcement_recommendation_enhanced`. -/
def recommendation_en_130 : List Char := ("**📢 Official recommendation for 130 points**\n\n**VERY STRICT CRITERION:** Maximum 2 colors + Complete Trumps\n\n**Exceptionally required configuration:**\n• Only 2 colors in your hand\n• Plus complete trumps mandatory\n• Very rare and risky configuration\n\n**Authorized special case:**\n• 6 trump cards (including Jack + 9) mandatory\n• + 2 cards of same color ≠ trump\n• To have exactly 2 colors in hand\n\n**Compliant hand examples:**\n• Jack♠ 9♠ Ace♠ 10♠ King♠ Queen♠ + Ace♥ + 10♥ (2 colors: ♠♥)\n• Jack♦ 9♦ Ace♦ 10♦ 8♦ 7♦ + King♣ + Queen♣ (2 colors: ♦♣)\n\n**💡 Sofiene\x27s advice:**\nVery restrictive configuration! Be absolutely certain before announcing.").data

/-- `recommendations['en'][140]` of `get_announcement_recommendation_enhanced`. -/
def recommendation_en_140 : List Char := ("**📢 Official recommendation for 140 points**\n\n**EXTREME CRITERION:** Opponent can have maximum one trick\n\n**Exceptional configuration required:**\n• Near-perfect hand mandatory\n• Total game domination\n• Near-certainty of winning 7 out of 8 tricks minimum\n• Absolute control of several suits\n\n**Announcement conditions:**\n• Extraordinary hand only\n• Confirmed game experience\n• Very careful evaluation necessary\n\n**⚠️ VERY RISKY - RESERVED FOR EXPERTS**\n\n**💡 Sofiene\x27s advice:**\nExceptional announcement for perfect hands. Only announce if 95% certain!").data

/-- `EnhancedSofieneAI.get_announcement_recommendation_enhanced`. -/
def get_announcement_recommendation_enhanced (points : Nat) (language : Lang) : List Char :=
  match language, points with
  | Lang.fr, 90 => recommendation_fr_90
  | Lang.fr, 100 => recommendation_fr_100
  | Lang.fr, 110 => recommendation_fr_110
  | Lang.fr, 120 => recommendation_fr_120
  | Lang.fr, 130 => recommendation_fr_130
  | Lang.fr, 140 => recommendation_fr_140
  | Lang.en, 90 => recommendation_en_90
  | Lang.en, 100 => recommendation_en_100
  | Lang.en, 110 => recommendation_en_110
  | Lang.en, 120 => recommendation_en_120
  | Lang.en, 130 => recommendation_en_130
  | Lang.en, 140 => recommendation_en_140
  | Lang.fr, _ => ("Aucune recommandation pour ").data ++ (Nat.repr points).data ++ (" points.").data
  | Lang.en, _ => ("No recommendation for ").data ++ (Nat.repr points).data ++ (" points.").data

/-- `conditions['fr'][90]` of `get_announcement_conditions_enhanced`. -/
def conditions_fr_90 : List Char := ("**🎯 Quand annoncer 90 points:**\n\n**Conditions idéales:**\n• Vous avez au moins 2 As (obligatoire)\n• Main faible mais pas catastrophique\n• Stratégie défensive envisageable\n• Début de partie prudent\n\n**Situations favorables:**\n• Jeu équilibré sans dominante claire\n• Partenaire potentiellement fort\n• Adversaires semblent hésitants\n\n**À éviter:**\n• Main très faible sans As\n• Aucun atout dans la couleur choisie\n• Adversaires très confiants").data

/-- `conditions['fr'][100]` of `get_announcement_conditions_enhanced`. -/
def conditions_fr_100 : List Char := ("**🎯 Quand annoncer 100 points:**\n\n**Conditions idéales:**\n• \"Généralement comme tu veux\" (règle officielle)\n• Main équilibrée sans critère strict\n• Flexibilité maximale souhaitée\n• Bon feeling général\n\n**Situations favorables:**\n• Jeu moyen avec potentiel\n• Incertitude sur la meilleure stratégie\n• Adaptation nécessaire selon le déroulement\n\n**À éviter:**\n• Main exceptionnelle (visez plus haut)\n• Main très faible (restez à 90)").data

/-- `conditions['fr'][110]` of `get_announcement_conditions_enhanced`. -/
def conditions_fr_110 : List Char := ("**🎯 Quand annoncer 110 points:**\n\n**Conditions OBLIGATOIRES:**\n• Atouts complets absolument certains\n• (Valet, 9, As, 10) minimum en main\n• Confiance totale de collecter tous les atouts\n\n**Situations favorables:**\n• Vous dominez la couleur d\x27atout\n• Main solide avec contrôle\n• Partenaire peut vous soutenir\n\n**À éviter absolument:**\n• Doute sur vos atouts\n• Atouts incomplets\n• Adversaires semblent forts dans votre couleur").data

/-- `conditions['fr'][120]` of `get_announcement_conditions_enhanced`. -/
def conditions_fr_120 : List Char := ("**🎯 Quand annoncer 120 points:**\n\n**Conditions STRICTES:**\n• Maximum 3 couleurs à la main (compter!)\n• Atouts complets obligatoires\n• Configuration très spécifique requise\n\n**Situations favorables:**\n• Main concentrée sur 3 couleurs max\n• Domination claire de l\x27atout\n• Distribution exceptionnelle\n\n**À éviter absolument:**\n• 4 couleurs dans votre main\n• Atouts incomplets\n• Doute sur le comptage des couleurs").data

/-- `conditions['fr'][130]` of `get_announcement_conditions_enhanced`. -/
def conditions_fr_130 : List Char := ("**🎯 Quand annoncer 130 points:**\n\n**Conditions TRÈS STRICTES:**\n• Maximum 2 couleurs à la main seulement\n• Atouts complets obligatoires\n• Configuration exceptionnellement rare\n\n**Situations favorables:**\n• Main bicolore avec domination\n• Contrôle total de l\x27atout\n• Quasi-certitude de réussite\n\n**À éviter absolument:**\n• Plus de 2 couleurs\n• Atouts incomplets\n• Moindre incertitude").data

/-- `conditions['fr'][140]` of `get_announcement_conditions_enhanced`. -/
def conditions_fr_140 : List Char := ("**🎯 Quand annoncer 140 points:**\n\n**Conditions EXTRÊMES:**\n• Main quasi-parfaite uniquement\n• Adversaire max 1 pli possible\n• Domination totale évidente\n\n**Situations favorables:**\n• Main exceptionnelle rare\n• Contrôle absolu du jeu\n• Expérience confirmée\n\n**À éviter absolument:**\n• Moindre doute\n• Main \"juste\" très bonne\n• Manque d\x27expérience").data

/-- `conditions['en'][90]` of `get_announcement_conditions_enhanced`. -/
def conditions_en_90 : List Char := ("**🎯 When to announce 90 points:**\n\n**Ideal conditions:**\n• You have at least 2 Aces (mandatory)\n• Weak but not catastrophic hand\n• Defensive strategy feasible\n• Cautious game start\n\n**Favorable situations:**\n• Balanced game without clear dominance\n• Potentially strong partner\n• Opponents seem hesitant\n\n**To avoid:**\n• Very weak hand without Aces\n• No trumps in chosen suit\n• Very confident opponents").data

/-- `conditions['en'][100]` of `get_announcement_conditions_enhanced`. -/
def conditions_en_100 : List Char := ("**🎯 When to announce 100 points:**\n\n**Ideal conditions:**\n• \"Generally as you wish\" (official rule)\n• Balanced hand without strict criteria\n• Maximum flexibility desired\n• Good general feeling\n\n**Favorable situations:**\n• Average game with potential\n• Uncertainty about best strategy\n• Adaptation needed according to progress\n\n**To avoid:**\n• Exceptional hand (aim higher)\n• Very weak hand (stay at 90)").data

/-- `conditions['en'][110]` of `get_announcement_conditions_enhanced`. -/
def conditions_en_110 : List Char := ("**🎯 When to announce 110 points:**\n\n**MANDATORY conditions:**\n• Complete trumps absolutely certain\n• (Jack, 9, Ace, 10) minimum in hand\n• Total confidence to collect all trumps\n\n**Favorable situations:**\n• You dominate the trump suit\n• Solid hand with control\n• Partner can support you\n\n**Absolutely avoid:**\n• Doubt about your trumps\n• Incomplete trumps\n• Opponents seem strong in your suit").data

/-- `conditions['en'][120]` of `get_announcement_conditions_enhanced`. -/
def conditions_en_120 : List Char := ("**🎯 When to announce 120 points:**\n\n**STRICT conditions:**\n• Maximum 3 colors in hand (count!)\n• Complete trumps mandatory\n• Very specific configuration required\n\n**Favorable situations:**\n• Hand concentrated on 3 colors max\n• Clear trump domination\n• Exceptional distribution\n\n**Absolutely avoid:**\n• 4 colors in your hand\n• Incomplete trumps\n• Doubt about color counting").data

/-- `conditions['en'][130]` of `get_announcement_conditions_enhanced`. -/
def conditions_en_130 : List Char := ("**🎯 When to announce 130 points:**\n\n**VERY STRICT conditions:**\n• Maximum 2 colors in hand only\n• Complete trumps mandatory\n• Exceptionally rare configuration\n\n**Favorable situations:**\n• Bicolor hand with domination\n• Total trump control\n• Near-certainty of success\n\n**Absolutely avoid:**\n• More than 2 colors\n• Incomplete trumps\n• Slightest uncertainty").data

/-- `conditions['en'][140]` of `get_announcement_conditions_enhanced`. -/
def conditions_en_140 : List Char := ("**🎯 When to announce 140 points:**\n\n**EXTREME conditions:**\n• Near-perfect hand only\n• Opponent max 1 possible trick\n• Total obvious domination\n\n**Favorable situations:**\n• Rare exceptional hand\n• Absolute game control\n• Confirmed experience\n\n**Absolutely avoid:**\n• Slightest doubt\n• \"Just\" very good hand\n• Lack of experience").data

/-- `EnhancedSofieneAI.get_announcement_conditions_enhanced`. -/
def get_announcement_conditions_enhanced (points : Nat) (language : Lang) : List Char :=
  match language, points with
  | Lang.fr, 90 => conditions_fr_90
  | Lang.fr, 100 => conditions_fr_100
  | Lang.fr, 110 => conditions_fr_110
  | Lang.fr, 120 => conditions_fr_120
  | Lang.fr, 130 => conditions_fr_130
  | Lang.fr, 140 => conditions_fr_140
  | Lang.en, 90 => conditions_en_90
  | Lang.en, 100 => conditions_en_100
  | Lang.en, 110 => conditions_en_110
  | Lang.en, 120 => conditions_en_120
  | Lang.en, 130 => conditions_en_130
  | Lang.en, 140 => conditions_en_140
  | Lang.fr, _ => ("Conditions pour ").data ++ (Nat.repr points).data ++ (" points non définies.").data
  | Lang.en, _ => ("Conditions for ").data ++ (Nat.repr points).data ++ (" points not defined.").data

/-- `fallbacks['fr']['announcement_rules']` of `intelligent_fallback`. -/
def fallback_fr_announcement_rules : List Char := ("Je peux vous expliquer les règles d\x27annonces complètes:\n\n**Recommandations officielles:**\n• **90 points:** 2 As minimum\n• **100 points:** \"Généralement comme tu veux\"\n• **110 points:** Atouts complets obligatoires\n• **120 points:** Max 3 couleurs + atouts complets\n• **130 points:** Max 2 couleurs + atouts complets\n• **140 points:** Adversaire max 1 pli\n\nPrécisez votre question pour une réponse plus détaillée!").data

/-- `fallbacks['fr']['hand_evaluation']` of `intelligent_fallback`. -/
def fallback_fr_hand_evaluation : List Char := ("Pour évaluer votre main, décrivez-moi vos cartes précisément:\n\n**Format recommandé:**\n\"J\x27ai Valet, 9, As de carreau, plus 10 de cœur, Roi de trèfle...\"\n\n**Je peux analyser:**\n• Votre potentiel d\x27annonce\n• Les risques et opportunités\n• La stratégie optimale\n• Les alternatives possibles\n\nDécrivez votre main et je vous donnerai une analyse experte!").data

/-- `fallbacks['fr']['scoring']` of `intelligent_fallback`. -/
def fallback_fr_scoring : List Char := ("Le système de score de la Belote Contrée suit des règles précises:\n\n**Points par manche:** 162 total (152 cartes + 10 dix de der)\n**Belote/Rebelote:** +20 points\n**Capot:** 250 points automatiques\n**Coinche:** ×2, Surcoinche: ×4\n\nQue souhaitez-vous savoir exactement sur le calcul des scores?").data

/-- `fallbacks['fr']['general']` of `intelligent_fallback`. -/
def fallback_fr_general : List Char := ("Je suis Sofiene, votre expert en Belote Tunisienne Contrée amélioré!\n\n**Mes spécialités:**\n🎯 Règles d\x27annonces complètes (90-140 points)\n🔍 Évaluation de main experte\n📊 Calcul de scores et stratégies\n👑 Belote/Rebelote et bonus\n🏆 Capot et situations spéciales\n🎲 Coinche/Surcoinche\n\nPosez-moi une question précise et je vous donnerai une réponse experte!").data

/-- `fallbacks['en']['announcement_rules']` of `intelligent_fallback`. -/
def fallback_en_announcement_rules : List Char := ("I can explain complete announcement rules:\n\n**Official recommendations:**\n• **90 points:** Minimum 2 Aces\n• **100 points:** \"Generally as you wish\"\n• **110 points:** Complete trumps mandatory\n• **120 points:** Max 3 colors + complete trumps\n• **130 points:** Max 2 colors + complete trumps\n• **140 points:** Opponent max 1 trick\n\nPlease specify your question for a more detailed answer!").data

/-- `fallbacks['en']['hand_evaluation']` of `intelligent_fallback`. -/
def fallback_en_hand_evaluation : List Char := ("To evaluate your hand, describe your cards precisely:\n\n**Recommended format:**\n\"I have Jack, 9, Ace of diamonds, plus 10 of hearts, King of clubs...\"\n\n**I can analyze:**\n• Your announcement potential\n• Risks and opportunities\n• Optimal strategy\n• Possible alternatives\n\nDescribe your hand and I\x27ll give you expert analysis!").data

/-- `fallbacks['en']['scoring']` of `intelligent_fallback`. -/
def fallback_en_scoring : List Char := ("Belote Contrée scoring follows precise rules:\n\n**Points per round:** 162 total (152 cards + 10 ten of last)\n**Belote/Rebelote:** +20 points\n**Capot:** 250 automatic points\n**Coinche:** ×2, Surcoinche: ×4\n\nWhat exactly would you like to know about score calculation?").data

/-- `fallbacks['en']['general']` of `intelligent_fallback`. -/
def fallback_en_general : List Char := ("I\x27m Sofiene, your enhanced Tunisian Belote Contrée expert!\n\n**My specialties:**\n🎯 Complete announcement rules (90-140 points)\n🔍 Expert hand evaluation\n📊 Score calculation and strategies\n👑 Belote/Rebelote and bonuses\n🏆 Capot and special situations\n🎲 Coinche/Surcoinche\n\nAsk me a specific question and I\x27ll give you an expert answer!").data

/-! ## String similarity (`difflib.SequenceMatcher.ratio`)

`LanguageProcessor.calculate_similarity` calls `SequenceMatcher(None,a,b)
.ratio()`.  With no junk (all compared strings are far below the autojunk
threshold of 200 characters) the algorithm is: repeatedly take the longest
matching block — maximal length, ties broken by lowest start in `a`, then
lowest start in `b` — recurse on the parts left and right of it, and return
`2·M/(len(a)+len(b))` where `M` is the total matched length (`1.0` when both
strings are empty). -/

/-- Length of the common prefix run of two strings. -/
def runLen : List Char → List Char → Nat
  | x :: xs, y :: ys => if x = y then runLen xs ys + 1 else 0
  | _, _ => 0

/-- Fold over candidate block starts keeping the first maximal block
(`<` comparison keeps the earliest candidate among equals, which is
`find_longest_match`'s tie-breaking). -/
def bestBlock (a b : List Char) : List (Nat × Nat) → Nat × Nat × Nat →
    Nat × Nat × Nat
  | [], best => best
  | ij :: rest, best =>
    let k := runLen (a.drop ij.1) (b.drop ij.2)
    if best.2.2 < k then bestBlock a b rest (ij.1, ij.2, k)
    else bestBlock a b rest best

/-- All block start candidates `(i, j)` in iteration order (`i` major). -/
def allPairs (la lb : Nat) : List (Nat × Nat) :=
  (List.range la).flatMap (fun i => (List.range lb).map (fun j => (i, j)))

/-- `SequenceMatcher.find_longest_match` over the whole strings. -/
def find_longest_match (a b : List Char) : Nat × Nat × Nat :=
  bestBlock a b (allPairs a.length b.length) (0, 0, 0)

/-- Total size of all matching blocks (the recursion of
`get_matching_blocks`).  Structural fuel; the `a`-side strictly shrinks at
each level, so `a.length + 1` is ample. -/
def blocksSumF : Nat → List Char → List Char → Nat
  | 0, _, _ => 0
  | fuel + 1, a, b =>
    let m := find_longest_match a b
    if m.2.2 = 0 then 0
    else
      m.2.2 + blocksSumF fuel (a.take m.1) (b.take m.2.1) +
        blocksSumF fuel (a.drop (m.1 + m.2.2)) (b.drop (m.2.1 + m.2.2))

/-- Total matched size, with ample fuel. -/
def blocksSum (a b : List Char) : Nat := blocksSumF (a.length + 1) a b

/-- `SequenceMatcher.ratio()`. -/
def ratioSM (a b : List Char) : ℚ :=
  if a.length + b.length = 0 then 1
  else (2 * blocksSum a b : ℚ) / (a.length + b.length)

/-- `LanguageProcessor.calculate_similarity` (both arguments lower-cased). -/
def calculate_similarity (q1 q2 : List Char) : ℚ :=
  ratioSM (pyLower q1) (pyLower q2)

/-! ## Semantic retrieval (`EnhancedSofieneAI`) -/

/-- The `RuleMatch` dataclass. -/
structure RuleMatch where
  rule_id : List Char
  score : ℚ
  rule_data : RuleRec
  match_type : List Char

/-- Language selection helpers for the per-language rule fields. -/
def ruleKeywords (rule : RuleRec) (language : Lang) : List (List Char) :=
  match language with
  | Lang.fr => rule.keywords_fr
  | Lang.en => rule.keywords_en

/-- `rule.get(f'query_variations_{language}', [])`. -/
def ruleVariations (rule : RuleRec) (language : Lang) : List (List Char) :=
  match language with
  | Lang.fr => rule.query_variations_fr
  | Lang.en => rule.query_variations_en

/-- `rule['title_fr'] if language == 'fr' else rule['title_en']`. -/
def ruleTitle (rule : RuleRec) (language : Lang) : List Char :=
  match language with
  | Lang.fr => rule.title_fr
  | Lang.en => rule.title_en

/-- `rule['content_fr'] if language == 'fr' else rule['content_en']`. -/
def ruleContent (rule : RuleRec) (language : Lang) : List Char :=
  match language with
  | Lang.fr => rule.content_fr
  | Lang.en => rule.content_en

/-- `EnhancedSofieneAI.calculate_keyword_boost`: fraction of the rule's
keyword set present among the query keywords, scaled by `0.4` and capped at
`0.4` (`0` for an empty keyword set).  The Python sets are modelled by
`dedup`/membership. -/
def calculate_keyword_boost (query_keywords : List (List Char))
    (rule : RuleRec) (language : Lang) : ℚ :=
  let rule_keywords := (ruleKeywords rule language).dedup
  let common := rule_keywords.filter (fun k => query_keywords.contains k)
  if rule_keywords.isEmpty then 0
  else min (((common.length : ℚ) / rule_keywords.length) * 0.4) 0.4

/-- `EnhancedSofieneAI.calculate_variation_boost`: best
`similarity * 0.3` over the rule's query variations whose similarity to the
query exceeds `0.7`, else `0`. -/
def calculate_variation_boost (query : List Char) (rule : RuleRec)
    (language : Lang) : ℚ :=
  let query_lower := pyLower query
  (ruleVariations rule language).foldl
    (fun max_boost variation =>
      let similarity := calculate_similarity query_lower (pyLower variation)
      if 0.7 < similarity then max max_boost (similarity * 0.3) else max_boost)
    0

/-- Stable insertion into a descending list (earlier elements stay ahead of
later ones with equal score, as Python's stable `sort` does). -/
def insertDescBy (score : α → ℚ) (x : α) : List α → List α
  | [] => [x]
  | y :: ys =>
    if score x < score y then y :: insertDescBy score x ys else x :: y :: ys

/-- Stable sort, descending by `score` (models `list.sort(key=…,
reverse=True)`). -/
def sortDescBy (score : α → ℚ) : List α → List α
  | [] => []
  | x :: xs => insertDescBy score x (sortDescBy score xs)

/-- Expert tip appended by `generate_enhanced_response` for announcement
rules. -/
def expertTip (language : Lang) : List Char :=
  match language with
  | Lang.fr =>
    ("\n\n**💡 Conseil d\x27expert Sofiene:**\n• Respectez strictement les critères officiels\n• En cas de doute, optez pour une annonce plus conservatrice\n• Observez le jeu des adversaires pour ajuster votre stratégie").data
  | Lang.en =>
    ("\n\n**💡 Sofiene expert tip:**\n• Strictly follow official criteria\n• When in doubt, choose more conservative announcement\n• Observe opponents\x27 game to adjust your strategy").data

/-- "See also" header of `generate_enhanced_response`. -/
def relatedHeader (language : Lang) : List Char :=
  match language with
  | Lang.fr => ("**📚 Voir aussi:**").data
  | Lang.en => ("**📚 See also:**").data

/-- `intelligent_fallback` (the optional `context` argument is unused by the
source and omitted): intent-keyed canned text, any intent outside the four
dictionary keys degrading to the `general` text. -/
def intelligent_fallback (query : List Char) (language : Lang) : List Char :=
  let intent := extract_intent_enhanced query language
  match language with
  | Lang.fr =>
    if intent = ("announcement_rules").data then fallback_fr_announcement_rules
    else if intent = ("hand_evaluation").data then fallback_fr_hand_evaluation
    else if intent = ("scoring").data then fallback_fr_scoring
    else fallback_fr_general
  | Lang.en =>
    if intent = ("announcement_rules").data then fallback_en_announcement_rules
    else if intent = ("hand_evaluation").data then fallback_en_hand_evaluation
    else if intent = ("scoring").data then fallback_en_scoring
    else fallback_en_general

/-- `EnhancedSofieneAI.generate_enhanced_response`.  The local `confidence`
label of the source is computed but never used and is omitted. -/
def generate_enhanced_response (matchList : List RuleMatch) (query : List Char)
    (language : Lang) : List Char :=
  match matchList with
  | [] => intelligent_fallback query language
  | best_match :: rest =>
    let rule := best_match.rule_data
    let response :=
      ("**").data ++ ruleTitle rule language ++ ("**\n\n").data ++
        ruleContent rule language
    let response :=
      if rule.category = ("announcements").data ∧ (0.8 : ℚ) < best_match.score
      then response ++ expertTip language
      else response
    if rest.isEmpty = false ∧ (0.8 : ℚ) < best_match.score then
      response ++ ("\n\n").data ++ relatedHeader language ++ ("\n").data ++
        (rest.take 2).foldl
          (fun acc m =>
            acc ++ ("• ").data ++ ruleTitle m.rule_data language ++ ("\n").data)
          []
    else response

/-- `EnhancedSofieneAI.semantic_search_enhanced`, with the embedding model
abstracted: `cos rule_id` is the cosine similarity of the (fixed) query
embedding with that rule's embedding for the requested language.  The
`try/except` of the source only converts provider exceptions into `None`;
the embedded computation itself is total. -/
def semantic_search_enhanced (cos : List Char → ℚ) (query : List Char)
    (language : Lang) : Option (List Char) :=
  let query_keywords := extract_keywords query language
  let scored := allRules.map (fun rule =>
    { rule_id := rule.id
      score := cos rule.id + calculate_keyword_boost query_keywords rule language
        + calculate_variation_boost query rule language
      rule_data := rule
      match_type := ("semantic").data : RuleMatch })
  let sorted := sortDescBy (fun m => m.score) scored
  match sorted with
  | [] => none
  | best :: _ =>
    if (0.3 : ℚ) < best.score then
      some (generate_enhanced_response (sorted.take 3) query language)
    else none

/-! ## Fuzzy fallback (`FuzzyMatcher`, `EnhancedSofieneAI.fuzzy_search`) -/

/-- `FuzzyMatcher.find_best_matches`: when the fuzzy dependencies are absent
it returns `[(query, 1.0)]`; otherwise `fuzzywuzzy.process.extract` ranks the
candidates by the (injected) scorer `fz` (an integer 0–100 score), keeps the
best `top_k`, normalises by 100 and filters by the 0.6 minimum similarity.
The `except` branch of the source is the provider raising and is not a
behaviour of this total model. -/
def find_best_matches (deps : Bool) (fz : List Char → ℚ) (query : List Char)
    (candidates : List (List Char)) (top_k : Nat) : List (List Char × ℚ) :=
  if !deps then [(query, 1)]
  else
    ((sortDescBy (fun pr => pr.2) (candidates.map (fun c => (c, fz c)))).take
        top_k).map (fun pr => (pr.1, pr.2 / 100)) |>.filter
      (fun pr => (0.6 : ℚ) ≤ pr.2)

/-- `EnhancedSofieneAI.fuzzy_search`. -/
def fuzzy_search (deps : Bool) (fz : List Char → ℚ) (query : List Char)
    (language : Lang) : Option (List Char) :=
  let all_variations := allRules.flatMap (fun rule =>
    (ruleVariations rule language).map (fun v => (v, rule)))
  let variation_texts := all_variations.map (fun vr => vr.1)
  let fuzzy_matches := find_best_matches deps fz query variation_texts 3
  match fuzzy_matches with
  | [] => none
  | best :: _ =>
    if (0.7 : ℚ) < best.2 then
      match all_variations.find? (fun vr => vr.1 = best.1) with
      | some vr =>
        some (generate_enhanced_response
          [{ rule_id := vr.2.id, score := best.2, rule_data := vr.2,
             match_type := ("fuzzy").data }] query language)
      | none => none
    else none

/-! ## Pattern cascade (`EnhancedSofieneAI.handle_enhanced_patterns`) -/

/-- `'{:.0%}'.format(c)` for the exact decimal confidences produced by the
hand evaluator (0.6, 0.7, 0.85, 0.9 — all exact percentages). -/
def pctStr (c : ℚ) : List Char :=
  (Nat.repr ((c.num * 100 / c.den).toNat)).data ++ ("%").data

/-- `', '.join(map(str, ns))`. -/
def joinNats (ns : List Nat) : List Char :=
  (", ").data.intercalate (ns.map (fun n => (Nat.repr n).data))

/-- `EnhancedSofieneAI.handle_hand_evaluation_enhanced`. -/
def handle_hand_evaluation_enhanced (query : List Char) (language : Lang) :
    List Char :=
  let evaluation := evaluate_hand_advanced query language
  match language with
  | Lang.fr =>
    ("**🎯 Analyse experte de votre main par Sofiene**\n\n**Recommandation officielle:** ").data ++
    (Nat.repr evaluation.recommended_announcement).data ++
    (" points\n**Niveau de confiance:** ").data ++ pctStr evaluation.confidence ++
    ("\n\n**Raisonnement:**\n").data ++ evaluation.reasoning ++ ("\n\n").data ++
    evaluation.detailed_analysis ++
    ("\n\n**Alternatives envisageables:** ").data ++
    joinNats evaluation.alternative_options ++
    (" points\n\n**💡 Conseil d\x27expert Sofiene:**\nVérifiez que votre main respecte strictement les critères officiels avant d\x27annoncer. En cas de doute, optez pour une annonce plus conservatrice.").data
  | Lang.en =>
    ("**🎯 Sofiene\x27s expert hand analysis**\n\n**Official recommendation:** ").data ++
    (Nat.repr evaluation.recommended_announcement).data ++
    (" points\n**Confidence level:** ").data ++ pctStr evaluation.confidence ++
    ("\n\n**Reasoning:**\n").data ++ evaluation.reasoning ++ ("\n\n").data ++
    evaluation.detailed_analysis ++
    ("\n\n\n**Possible alternatives:** ").data ++
    joinNats evaluation.alternative_options ++
    (" points\n\n**💡 Sofiene\x27s expert advice:**\nVerify your hand strictly meets official criteria before announcing. When in doubt, choose a more conservative announcement.").data

/-- The hand-evaluation search patterns (`hand_patterns` in the source). -/
def hand_patterns (language : Lang) : List (List (List SAtom)) :=
  match language with
  | Lang.fr =>
    [ rxSeq [[[SAtom.lit 'j', SAtom.anyc] ++ satomsLits "ai"], rxDS,
        rxAlt ["valet", "9", "as", "10", "roi", "dame"], rxDS,
        rxAlt ["annoncer", "conseiller"]],
      rxSeq [[satomsLits "main", satomsLits "carte" ++ [SAtom.optC 's']], rxDS,
        rxAlt ["annoncer", "recommandation"]],
      rxSeq [rxAlt ["que", "quoi", "combien"], rxDS, rxLit "annoncer", rxDS,
        rxAlt ["avec", "main"]],
      rxSeq [rxLit "évaluer", rxDS, rxLit "main"],
      rxSeq [rxLit "analyser", rxDS, rxLit "main"] ]
  | Lang.en =>
    [ rxSeq [[[SAtom.lit 'i', SAtom.anyc] ++ satomsLits "have"], rxDS,
        rxAlt ["jack", "9", "ace", "10", "king", "queen"], rxDS,
        rxAlt ["announce", "recommend"]],
      rxSeq [[satomsLits "hand", satomsLits "card" ++ [SAtom.optC 's']], rxDS,
        rxAlt ["announce", "recommendation"]],
      rxSeq [rxAlt ["what", "how much"], rxDS, rxLit "announce", rxDS,
        rxAlt ["with", "hand"]],
      rxSeq [rxLit "evaluate", rxDS, rxLit "hand"],
      rxSeq [rxLit "analyze", rxDS, rxLit "hand"] ]

/-- The belote/rebelote search patterns (`belote_patterns`). -/
def belote_patterns (language : Lang) : List (List (List SAtom)) :=
  match language with
  | Lang.fr =>
    [ rxSeq [rxLit "belote", rxDS, rxLit "rebelote"],
      rxSeq [rxLit "roi", rxDS, rxLit "dame", rxDS, rxLit "atout"],
      rxSeq [rxLit "bonus", rxDS, rxLit "20"],
      rxSeq [rxAlt ["quand", "comment"], rxDS, rxAlt ["utiliser", "jouer"],
        rxDS, rxLit "belote"],
      rxSeq [rxLit "stratégie", rxDS, rxLit "belote"],
      rxSeq [rxLit "belote", rxDS, rxLit "stratégie"] ]
  | Lang.en =>
    [ rxSeq [rxLit "belote", rxDS, rxLit "rebelote"],
      rxSeq [rxLit "king", rxDS, rxLit "queen", rxDS, rxLit "trump"],
      rxSeq [rxLit "bonus", rxDS, rxLit "20"],
      rxSeq [rxAlt ["when", "how"], rxDS, rxAlt ["use", "play"], rxDS,
        rxLit "belote"],
      rxSeq [rxLit "strategy", rxDS, rxLit "belote"],
      rxSeq [rxLit "belote", rxDS, rxLit "strategy"] ]

/-- The coinche search patterns (`coinche_patterns`). -/
def coinche_patterns (language : Lang) : List (List (List SAtom)) :=
  match language with
  | Lang.fr =>
    [ rxSeq [rxLit "coinche", rxDS, rxLit "surcoinche"],
      rxLit "multiplicateur",
      rxSeq [rxLit "doubler", rxDS, rxLit "contrat"],
      rxSeq [rxAlt ["quand", "comment"], rxDS, rxLit "coincher"],
      rxSeq [rxLit "stratégie", rxDS, rxLit "coinche"] ]
  | Lang.en =>
    [ rxSeq [rxLit "coinche", rxDS, rxLit "surcoinche"],
      rxLit "multiplier",
      rxSeq [rxLit "double", rxDS, rxLit "contract"],
      rxSeq [rxAlt ["when", "how"], rxDS, rxLit "coinche"],
      rxSeq [rxLit "strategy", rxDS, rxLit "coinche"] ]

/-- The capot search patterns (`capot_patterns`). -/
def capot_patterns (language : Lang) : List (List (List SAtom)) :=
  match language with
  | Lang.fr =>
    [ rxLit "capot",
      rxSeq [rxLit "tous", rxDS, rxLit "plis"],
      rxSeq [rxLit "250", rxDS, rxLit "points"],
      rxSeq [rxAlt ["quand", "comment"], rxDS, rxLit "capot"],
      rxSeq [rxLit "stratégie", rxDS, rxLit "capot"] ]
  | Lang.en =>
    [ rxLit "capot",
      rxSeq [rxLit "all", rxDS, rxLit "tricks"],
      rxSeq [rxLit "250", rxDS, rxLit "points"],
      rxSeq [rxAlt ["when", "how"], rxDS, rxLit "capot"],
      rxSeq [rxLit "strategy", rxDS, rxLit "capot"] ]

/-- `EnhancedSofieneAI.get_belote_detailed_info`. -/
def get_belote_detailed_info (language : Lang) : List Char :=
  ("**").data ++ ruleTitle rule_belote_rebelote_detailed language ++
    ("**\n\n").data ++ ruleContent rule_belote_rebelote_detailed language

/-- `EnhancedSofieneAI.get_coinche_detailed_info`. -/
def get_coinche_detailed_info (language : Lang) : List Char :=
  ("**").data ++ ruleTitle rule_coinche_system_detailed language ++
    ("**\n\n").data ++ ruleContent rule_coinche_system_detailed language

/-- `EnhancedSofieneAI.get_capot_detailed_info`. -/
def get_capot_detailed_info (language : Lang) : List Char :=
  ("**").data ++ ruleTitle rule_capot_rules_complete language ++
    ("**\n\n").data ++ ruleContent rule_capot_rules_complete language

/-- Hand-evaluation stage of the cascade (first pattern family). -/
def handStage (query : List Char) (language : Lang) : Option (List Char) :=
  let query_lower := pyStrip (pyLower query)
  if (hand_patterns language).any (fun p => reSearch p query_lower) then
    some (handle_hand_evaluation_enhanced query language)
  else none

/-- The loop over extracted point values: the first value in 90–140 whose
query also contains a recommendation word dispatches to the recommendation
responder, a when/how word to the conditions responder; otherwise continue. -/
def pointsLoop (query_lower : List Char) (language : Lang) :
    List Nat → Option (List Char)
  | [] => none
  | points :: rest =>
    if 90 ≤ points ∧ points ≤ 140 then
      if [("recommandation").data, ("recommendation").data, ("conseil").data,
          ("advice").data].any (fun w => containsSub w query_lower) then
        some (get_announcement_recommendation_enhanced points language)
      else if [("quand").data, ("when").data, ("comment").data,
          ("how").data].any (fun w => containsSub w query_lower) then
        some (get_announcement_conditions_enhanced points language)
      else pointsLoop query_lower language rest
    else pointsLoop query_lower language rest

/-- Point-extraction stage of the cascade. -/
def pointsStage (query : List Char) (language : Lang) : Option (List Char) :=
  let query_lower := pyStrip (pyLower query)
  pointsLoop query_lower language (extract_points_from_query query_lower)

/-- Belote/rebelote stage of the cascade. -/
def beloteStage (query : List Char) (language : Lang) : Option (List Char) :=
  let query_lower := pyStrip (pyLower query)
  if (belote_patterns language).any (fun p => reSearch p query_lower) then
    some (get_belote_detailed_info language)
  else none

/-- Coinche stage of the cascade. -/
def coincheStage (query : List Char) (language : Lang) : Option (List Char) :=
  let query_lower := pyStrip (pyLower query)
  if (coinche_patterns language).any (fun p => reSearch p query_lower) then
    some (get_coinche_detailed_info language)
  else none

/-- Capot stage of the cascade. -/
def capotStage (query : List Char) (language : Lang) : Option (List Char) :=
  let query_lower := pyStrip (pyLower query)
  if (capot_patterns language).any (fun p => reSearch p query_lower) then
    some (get_capot_detailed_info language)
  else none

/-- The cascade with the point-extraction stage removed (what
`handle_enhanced_patterns` computes whenever point extraction yields no
response). -/
def handleStagesNoPoints (query : List Char) (language : Lang) :
    Option (List Char) :=
  match handStage query language with
  | some r => some r
  | none =>
    match beloteStage query language with
    | some r => some r
    | none =>
      match coincheStage query language with
      | some r => some r
      | none => capotStage query language

/-- `EnhancedSofieneAI.handle_enhanced_patterns`: the precedence-ordered
cascade (hand evaluation, point extraction, belote, coinche, capot), `none`
when nothing matches. -/
def handle_enhanced_patterns (query : List Char) (language : Lang) :
    Option (List Char) :=
  match handStage query language with
  | some r => some r
  | none =>
    match pointsStage query language with
    | some r => some r
    | none =>
      match beloteStage query language with
      | some r => some r
      | none =>
        match coincheStage query language with
        | some r => some r
        | none => capotStage query language

/-! ## Router (`EnhancedSofieneAI.process_query_enhanced`) -/

/-- `'fr' / 'en'` as text, for the cache key. -/
def langStr (language : Lang) : List Char :=
  match language with
  | Lang.fr => ("fr").data
  | Lang.en => ("en").data

/-- The cache key `f"{query}_{language}"`. -/
def cacheKey (query : List Char) (language : Lang) : List Char :=
  query ++ ("_").data ++ langStr language

/-- `EnhancedSofieneAI.process_query_enhanced`.  Injected externals:
`modelAvailable` models `self.model and self.rule_embeddings`, `deps` models
`DEPENDENCIES_AVAILABLE`, `cos` the per-rule cosine similarities of the
embedding model for this query, `fz` the `fuzzywuzzy` scorer, and `cache` the
current response cache contents (the write-back `_cache_response` mutates
state and does not affect the returned value).  The unused `context` argument
is omitted. -/
def process_query_enhanced (modelAvailable deps : Bool)
    (cos : List Char → ℚ) (fz : List Char → ℚ)
    (cache : List (List Char × List Char)) (query : List Char)
    (language : Lang) : List Char :=
  match cache.lookup (cacheKey query language) with
  | some r => r
  | none =>
    let normalized_query := normalize_query query language
    match handle_enhanced_patterns query language with
    | some r => r
    | none =>
      match (if modelAvailable then
          semantic_search_enhanced cos normalized_query language else none) with
      | some r => r
      | none =>
        match fuzzy_search deps fz normalized_query language with
        | some r => r
        | none => intelligent_fallback query language

/-! ## Auxiliary definitions used by the claim statements -/

/-- The `general` fallback text of the requested language. -/
def generalFallbackText (language : Lang) : List Char :=
  match language with
  | Lang.fr => fallback_fr_general
  | Lang.en => fallback_en_general

/-- The localized test query "recommendation for {p} points" of spec §8. -/
def recommendationQuery (language : Lang) (p : Nat) : List Char :=
  match language with
  | Lang.fr => ("recommandation pour ").data ++ (Nat.repr p).data ++ (" points").data
  | Lang.en => ("recommendation for ").data ++ (Nat.repr p).data ++ (" points").data

/-! # Verification of the specification claims

Helper lemmas first, then one theorem per claim (with its counterexample,
amended statement and witness where applicable). -/

/-! ## Substring containment helpers -/

lemma containsSub_head (c : Char) (cs : List Char) :
    ∀ d : List Char, containsSub (c :: cs) d = true → containsSub [c] d = true := by
  intro d
  induction d with
  | nil => simp [containsSub, List.isPrefixOf]
  | cons x xs ih =>
    simp only [containsSub, Bool.or_eq_true]
    rintro (h | h)
    · left
      simp only [List.isPrefixOf, Bool.and_eq_true] at h ⊢
      exact ⟨h.1, trivial⟩
    · right
      exact ih h

lemma containsSub_head_false (c : Char) (cs d : List Char)
    (h : containsSub [c] d = false) : containsSub (c :: cs) d = false := by
  cases hx : containsSub (c :: cs) d
  · rfl
  · have := containsSub_head c cs d hx
    simp [h] at this

/-! ## Decision-table helpers -/

lemma determine_spec (ta : TrumpAnalysis) (ca : ColorAnalysis) :
    ((determine_recommendation ta ca).points,
      (determine_recommendation ta ca).confidence) =
      spec_decision_table ta.complete_trumps ta.trump_count ca.color_count := by
  unfold determine_recommendation spec_decision_table
  split_ifs <;> simp <;> norm_num

lemma determine_range (ta : TrumpAnalysis) (ca : ColorAnalysis) :
    (determine_recommendation ta ca).points ∈
      ([90, 100, 110, 120, 130, 140] : List Nat) ∧
    0 ≤ (determine_recommendation ta ca).confidence ∧
    (determine_recommendation ta ca).confidence ≤ 1 := by
  unfold determine_recommendation
  split_ifs <;> refine ⟨by simp, by norm_num, by norm_num⟩

/-! ## Normalisation idempotence helpers -/

lemma isPySpace_false_of_ge (d : Char) (h : 65 ≤ d.toNat) : isPySpace d = false := by
  cases hs : isPySpace d
  · rfl
  · exfalso
    simp only [isPySpace, Char.isWhitespace, Bool.or_eq_true, decide_eq_true_eq] at hs
    rcases hs with ((h1 | h1) | h1) | h1 <;> subst h1 <;> exact absurd h (by decide)

lemma pyLowerChar_toNat (c : Char) (h : 65 ≤ c.toNat ∧ c.toNat ≤ 90) :
    (pyLowerChar c).toNat = c.toNat + 32 := by
  have hv : (c.toNat + 32).isValidChar := Or.inl (by omega)
  unfold pyLowerChar
  rw [if_pos h, Char.ofNat, dif_pos hv]
  simp [Char.ofNatAux, Char.toNat, UInt32.toNat, BitVec.toNat_ofNatLt]

lemma pyLowerChar_idem (c : Char) : pyLowerChar (pyLowerChar c) = pyLowerChar c := by
  by_cases h : 65 ≤ c.toNat ∧ c.toNat ≤ 90
  · have ht := pyLowerChar_toNat c h
    conv_lhs => rw [pyLowerChar]
    rw [if_neg (by rw [ht]; omega)]
  · unfold pyLowerChar
    rw [if_neg h, if_neg h]

lemma isPySpace_pyLowerChar (c : Char) : isPySpace (pyLowerChar c) = isPySpace c := by
  by_cases h : 65 ≤ c.toNat ∧ c.toNat ≤ 90
  · rw [isPySpace_false_of_ge _ (by rw [pyLowerChar_toNat c h]; omega),
      isPySpace_false_of_ge _ h.1]
  · unfold pyLowerChar
    rw [if_neg h]

lemma pyLower_idem (s : List Char) : pyLower (pyLower s) = pyLower s := by
  simp [pyLower, List.map_map, Function.comp_def, pyLowerChar_idem]

lemma dropWhile_map_lower (l : List Char) :
    List.dropWhile isPySpace (List.map pyLowerChar l) =
      List.map pyLowerChar (List.dropWhile isPySpace l) := by
  rw [List.dropWhile_map]
  have hp : (isPySpace ∘ pyLowerChar) = isPySpace := by
    funext c; exact isPySpace_pyLowerChar c
  rw [hp]

lemma pyLower_pyStrip (s : List Char) : pyLower (pyStrip s) = pyStrip (pyLower s) := by
  simp only [pyStrip, pyLower]
  rw [dropWhile_map_lower, ← List.map_reverse, dropWhile_map_lower,
    ← List.map_reverse]

/-- Dropping leading whitespace again after the right strip changes nothing
when the input already had none (the right strip only removes a suffix). -/
lemma dropWhile_stripRight (p : Char → Bool) (y : List Char)
    (hy : y.dropWhile p = y) :
    ((y.reverse.dropWhile p).reverse).dropWhile p = (y.reverse.dropWhile p).reverse := by
  have hpre : ∃ t, y = (y.reverse.dropWhile p).reverse ++ t := by
    refine ⟨(y.reverse.takeWhile p).reverse, ?_⟩
    have := List.takeWhile_append_dropWhile (p := p) (l := y.reverse)
    calc y = y.reverse.reverse := (List.reverse_reverse y).symm
      _ = (y.reverse.takeWhile p ++ y.reverse.dropWhile p).reverse := by rw [this]
      _ = (y.reverse.dropWhile p).reverse ++ (y.reverse.takeWhile p).reverse := by
          rw [List.reverse_append]
  obtain ⟨t, ht⟩ := hpre
  cases hz : (y.reverse.dropWhile p).reverse with
  | nil => simp
  | cons a as =>
    rw [List.dropWhile_cons]
    have ha : p a = false := by
      rw [hz] at ht
      rw [ht] at hy
      rw [List.dropWhile_eq_self_iff] at hy
      have h0 := hy (by simp)
      simp only [List.cons_append, List.get] at h0
      exact Bool.eq_false_iff.mpr h0
    rw [ha]
    simp

lemma pyStrip_idem (s : List Char) : pyStrip (pyStrip s) = pyStrip s := by
  unfold pyStrip
  have h1 : (s.dropWhile isPySpace).dropWhile isPySpace = s.dropWhile isPySpace :=
    List.dropWhile_idempotent _ _
  have h2 := dropWhile_stripRight isPySpace (s.dropWhile isPySpace) h1
  rw [h2]
  rw [List.reverse_reverse, List.dropWhile_idempotent]

lemma lowerStrip_idem (q : List Char) :
    pyStrip (pyLower (pyStrip (pyLower q))) = pyStrip (pyLower q) := by
  rw [pyLower_pyStrip, pyLower_idem, pyStrip_idem]

/-! ## SequenceMatcher ratio bounds -/

lemma runLen_le_left : ∀ a b : List Char, runLen a b ≤ a.length := by
  intro a
  induction a with
  | nil => intro b; cases b <;> simp [runLen]
  | cons x xs ih =>
    intro b
    cases b with
    | nil => simp [runLen]
    | cons y ys =>
      simp only [runLen]
      split
      · have := ih ys
        simp only [List.length_cons]
        omega
      · simp

lemma runLen_le_right : ∀ a b : List Char, runLen a b ≤ b.length := by
  intro a
  induction a with
  | nil => intro b; cases b <;> simp [runLen]
  | cons x xs ih =>
    intro b
    cases b with
    | nil => simp [runLen]
    | cons y ys =>
      simp only [runLen]
      split
      · have := ih ys
        simp only [List.length_cons]
        omega
      · simp

/-- Invariant of the best-block fold: any result drawn from in-range
candidates stays within both strings. -/
lemma bestBlock_bounds (a b : List Char) :
    ∀ (pairs : List (Nat × Nat)) (best : Nat × Nat × Nat),
      (∀ ij ∈ pairs, ij.1 ≤ a.length ∧ ij.2 ≤ b.length) →
      best.1 + best.2.2 ≤ a.length ∧ best.2.1 + best.2.2 ≤ b.length →
      (bestBlock a b pairs best).1 + (bestBlock a b pairs best).2.2 ≤ a.length ∧
      (bestBlock a b pairs best).2.1 + (bestBlock a b pairs best).2.2 ≤ b.length := by
  intro pairs
  induction pairs with
  | nil => intro best _ hb; exact hb
  | cons ij rest ih =>
    intro best hmem hb
    simp only [bestBlock]
    have hij := hmem ij (List.mem_cons_self _ _)
    have hrest : ∀ x ∈ rest, x.1 ≤ a.length ∧ x.2 ≤ b.length :=
      fun x hx => hmem x (List.mem_cons_of_mem _ hx)
    split
    · refine ih _ hrest ⟨?_, ?_⟩ <;> dsimp only <;>
        [have h1 := runLen_le_left (a.drop ij.1) (b.drop ij.2);
         have h1 := runLen_le_right (a.drop ij.1) (b.drop ij.2)] <;>
      · simp only [List.length_drop] at h1
        omega
    · exact ih _ hrest hb

lemma find_longest_match_bounds (a b : List Char) :
    (find_longest_match a b).1 + (find_longest_match a b).2.2 ≤ a.length ∧
    (find_longest_match a b).2.1 + (find_longest_match a b).2.2 ≤ b.length := by
  apply bestBlock_bounds
  · intro ij hij
    simp only [allPairs, List.mem_flatMap, List.mem_map, List.mem_range] at hij
    obtain ⟨i, hi, j, hj, rfl⟩ := hij
    exact ⟨Nat.le_of_lt hi, Nat.le_of_lt hj⟩
  · simp

lemma blocksSumF_le : ∀ (fuel : Nat) (a b : List Char),
    blocksSumF fuel a b ≤ a.length ∧ blocksSumF fuel a b ≤ b.length := by
  intro fuel
  induction fuel with
  | zero => intro a b; simp [blocksSumF]
  | succ n ih =>
    intro a b
    simp only [blocksSumF]
    split
    · simp
    · have hm := find_longest_match_bounds a b
      have h1 := ih (a.take (find_longest_match a b).1)
        (b.take (find_longest_match a b).2.1)
      have h2 := ih (a.drop ((find_longest_match a b).1 + (find_longest_match a b).2.2))
        (b.drop ((find_longest_match a b).2.1 + (find_longest_match a b).2.2))
      simp only [List.length_take, List.length_drop] at h1 h2
      constructor <;> omega

lemma blocksSum_le_left (a b : List Char) : blocksSum a b ≤ a.length :=
  (blocksSumF_le _ a b).1

lemma blocksSum_le_right (a b : List Char) : blocksSum a b ≤ b.length :=
  (blocksSumF_le _ a b).2

lemma ratioSM_le_one (a b : List Char) : ratioSM a b ≤ 1 := by
  unfold ratioSM
  split
  · exact le_refl 1
  · rename_i h
    have hpos : 0 < a.length + b.length := Nat.pos_of_ne_zero h
    rw [div_le_one (by exact_mod_cast hpos)]
    have h1 := blocksSum_le_left a b
    have h2 := blocksSum_le_right a b
    have : (blocksSum a b : ℚ) ≤ a.length := by exact_mod_cast h1
    have : (blocksSum a b : ℚ) ≤ b.length := by exact_mod_cast h2
    linarith

lemma calculate_similarity_le_one (q1 q2 : List Char) :
    calculate_similarity q1 q2 ≤ 1 := ratioSM_le_one _ _

lemma variation_boost_le (query : List Char) (rule : RuleRec) (language : Lang) :
    calculate_variation_boost query rule language ≤ 3 / 10 := by
  unfold calculate_variation_boost
  have hgen : ∀ (vars : List (List Char)) (acc : ℚ), acc ≤ 3 / 10 →
      vars.foldl (fun max_boost variation =>
        let similarity := calculate_similarity (pyLower query) (pyLower variation)
        if 0.7 < similarity then max max_boost (similarity * 0.3) else max_boost)
        acc ≤ 3 / 10 := by
    intro vars
    induction vars with
    | nil => intro acc h; exact h
    | cons v rest ih =>
      intro acc h
      simp only [List.foldl]
      apply ih
      split
      · apply max_le h
        have hs := calculate_similarity_le_one (pyLower query) (pyLower v)
        nlinarith [hs]
      · exact h
  exact hgen _ 0 (by norm_num)

/-! ## Non-emptiness of every pipeline stage -/

lemma intelligent_fallback_ne_nil (query : List Char) (language : Lang) :
    intelligent_fallback query language ≠ [] := by
  unfold intelligent_fallback
  cases language <;> (dsimp only; split_ifs <;> decide)

lemma rec_text_ne_nil (points : Nat) (language : Lang) :
    get_announcement_recommendation_enhanced points language ≠ [] := by
  unfold get_announcement_recommendation_enhanced
  split
  all_goals first
    | decide
    | (repeat' apply List.append_ne_nil_of_left_ne_nil
       decide)

lemma cond_text_ne_nil (points : Nat) (language : Lang) :
    get_announcement_conditions_enhanced points language ≠ [] := by
  unfold get_announcement_conditions_enhanced
  split
  all_goals first
    | decide
    | (repeat' apply List.append_ne_nil_of_left_ne_nil
       decide)

lemma hand_response_ne_nil (query : List Char) (language : Lang) :
    handle_hand_evaluation_enhanced query language ≠ [] := by
  unfold handle_hand_evaluation_enhanced
  cases language <;>
    · repeat' apply List.append_ne_nil_of_left_ne_nil
      decide

lemma belote_info_ne_nil (language : Lang) : get_belote_detailed_info language ≠ [] := by
  unfold get_belote_detailed_info
  repeat' apply List.append_ne_nil_of_left_ne_nil
  decide

lemma coinche_info_ne_nil (language : Lang) : get_coinche_detailed_info language ≠ [] := by
  unfold get_coinche_detailed_info
  repeat' apply List.append_ne_nil_of_left_ne_nil
  decide

lemma capot_info_ne_nil (language : Lang) : get_capot_detailed_info language ≠ [] := by
  unfold get_capot_detailed_info
  repeat' apply List.append_ne_nil_of_left_ne_nil
  decide

lemma generate_ne_nil (matchList : List RuleMatch) (query : List Char)
    (language : Lang) : generate_enhanced_response matchList query language ≠ [] := by
  unfold generate_enhanced_response
  cases matchList with
  | nil => exact intelligent_fallback_ne_nil query language
  | cons best rest =>
    dsimp only
    split_ifs <;>
      · repeat' apply List.append_ne_nil_of_left_ne_nil
        decide

lemma pointsLoop_some_ne_nil (query_lower : List Char) (language : Lang) :
    ∀ (ps : List Nat) (r : List Char),
      pointsLoop query_lower language ps = some r → r ≠ [] := by
  intro ps
  induction ps with
  | nil => intro r h; simp [pointsLoop] at h
  | cons p rest ih =>
    intro r h
    unfold pointsLoop at h
    split_ifs at h
    · injection h with h
      exact h ▸ rec_text_ne_nil p language
    · injection h with h
      exact h ▸ cond_text_ne_nil p language
    · exact ih r h
    · exact ih r h

lemma handStage_some_ne_nil (query : List Char) (language : Lang) (r : List Char)
    (h : handStage query language = some r) : r ≠ [] := by
  unfold handStage at h
  dsimp only at h
  split_ifs at h
  exact (Option.some.inj h) ▸ hand_response_ne_nil query language

lemma pointsStage_some_ne_nil (query : List Char) (language : Lang) (r : List Char)
    (h : pointsStage query language = some r) : r ≠ [] := by
  unfold pointsStage at h
  exact pointsLoop_some_ne_nil _ language _ r h

lemma beloteStage_some_ne_nil (query : List Char) (language : Lang) (r : List Char)
    (h : beloteStage query language = some r) : r ≠ [] := by
  unfold beloteStage at h
  dsimp only at h
  split_ifs at h
  exact (Option.some.inj h) ▸ belote_info_ne_nil language

lemma coincheStage_some_ne_nil (query : List Char) (language : Lang) (r : List Char)
    (h : coincheStage query language = some r) : r ≠ [] := by
  unfold coincheStage at h
  dsimp only at h
  split_ifs at h
  exact (Option.some.inj h) ▸ coinche_info_ne_nil language

lemma capotStage_some_ne_nil (query : List Char) (language : Lang) (r : List Char)
    (h : capotStage query language = some r) : r ≠ [] := by
  unfold capotStage at h
  dsimp only at h
  split_ifs at h
  exact (Option.some.inj h) ▸ capot_info_ne_nil language

lemma handle_some_ne_nil (query : List Char) (language : Lang) (r : List Char)
    (h : handle_enhanced_patterns query language = some r) : r ≠ [] := by
  unfold handle_enhanced_patterns at h
  cases h1 : handStage query language with
  | some x =>
    rw [h1] at h
    exact (Option.some.inj h) ▸ handStage_some_ne_nil query language x h1
  | none =>
    rw [h1] at h
    dsimp only at h
    cases h2 : pointsStage query language with
    | some x =>
      rw [h2] at h
      exact (Option.some.inj h) ▸ pointsStage_some_ne_nil query language x h2
    | none =>
      rw [h2] at h
      dsimp only at h
      cases h3 : beloteStage query language with
      | some x =>
        rw [h3] at h
        exact (Option.some.inj h) ▸ beloteStage_some_ne_nil query language x h3
      | none =>
        rw [h3] at h
        dsimp only at h
        cases h4 : coincheStage query language with
        | some x =>
          rw [h4] at h
          exact (Option.some.inj h) ▸ coincheStage_some_ne_nil query language x h4
        | none =>
          rw [h4] at h
          dsimp only at h
          exact capotStage_some_ne_nil query language r h

lemma semantic_some_ne_nil (cos : List Char → ℚ) (query : List Char)
    (language : Lang) (r : List Char)
    (h : semantic_search_enhanced cos query language = some r) : r ≠ [] := by
  unfold semantic_search_enhanced at h
  dsimp only at h
  split at h
  · exact absurd h (by simp)
  · split_ifs at h
    exact (Option.some.inj h) ▸ generate_ne_nil _ _ _

lemma fuzzy_some_ne_nil (deps : Bool) (fz : List Char → ℚ) (query : List Char)
    (language : Lang) (r : List Char)
    (h : fuzzy_search deps fz query language = some r) : r ≠ [] := by
  unfold fuzzy_search at h
  dsimp only at h
  split at h
  · exact absurd h (by simp)
  · split_ifs at h
    split at h
    · exact (Option.some.inj h) ▸ generate_ne_nil _ _ _
    · exact absurd h (by simp)

/-! ## Point-extraction and pattern-dispatch helpers -/

lemma scanPointsF_nil_of_noBoundaryAlt :
    ∀ (fuel : Nat) (prev : Option Char) (s : List Char),
      hasBoundaryAlt prev s = false → scanPointsF fuel prev s = [] := by
  intro fuel
  induction fuel with
  | zero => intro prev s _; rfl
  | succ n ih =>
    intro prev s h
    cases s with
    | nil => rfl
    | cons c rest =>
      simp only [hasBoundaryAlt, Bool.or_eq_false_iff] at h
      obtain ⟨h1, h2⟩ := h
      simp only [scanPointsF]
      cases hx : pointAltHere prev (c :: rest) with
      | some v => rw [hx] at h1; simp at h1
      | none => exact ih (some c) rest h2

lemma extract_points_nil_of_noBoundaryAlt (q : List Char)
    (h : hasBoundaryAlt none q = false) : extract_points_from_query q = [] :=
  scanPointsF_nil_of_noBoundaryAlt _ none q h

lemma c3_case (q : List Char) (language : Lang) (p : Nat)
    (hs : (handle_enhanced_patterns q language).isSome = true)
    (hne : (handle_enhanced_patterns q language).getD [] ≠ [])
    (hcont : containsSub (Nat.repr p).data
      ((handle_enhanced_patterns q language).getD []) = true) :
    ∃ r : List Char,
      handle_enhanced_patterns q language = some r ∧
      r ≠ [] ∧ containsSub (Nat.repr p).data r = true ∧
      ∀ (modelAvailable deps : Bool) (cos fz : List Char → ℚ),
        process_query_enhanced modelAvailable deps cos fz [] q language = r := by
  cases ho : handle_enhanced_patterns q language with
  | none => rw [ho] at hs; cases hs
  | some r =>
    rw [ho] at hne hcont
    refine ⟨r, rfl, hne, hcont, ?_⟩
    intro modelAvailable deps cos fz
    simp only [process_query_enhanced, List.lookup, ho]

/-! ## Marker-containment helpers for response composition -/

/-- Single-character containment distributes over append (a one-character
pattern cannot straddle the boundary). -/
lemma isPrefixOf_single (c x : Char) (t : List Char) :
    ([c].isPrefixOf (x :: t)) = (c == x) := by
  simp [List.isPrefixOf]

lemma containsSub_single_append (c : Char) :
    ∀ a b : List Char, containsSub [c] (a ++ b) =
      (containsSub [c] a || containsSub [c] b) := by
  intro a
  induction a with
  | nil => intro b; simp [containsSub, List.isPrefixOf]
  | cons x xs ih =>
    intro b
    simp only [List.cons_append, containsSub, isPrefixOf_single,
      List.append_eq, ih, Bool.or_assoc]

/-- Cons step for single-character containment. -/
lemma containsSub_single_cons (c x : Char) (t : List Char) :
    containsSub [c] (x :: t) = ((c == x) || containsSub [c] t) := by
  simp [containsSub, isPrefixOf_single]

/-- The also-see bullet list contains no occurrence of `c` when no title
does. -/
lemma containsSub_single_foldl (c : Char) (language : Lang)
    (hc1 : containsSub [c] (("• ").data) = false)
    (hc2 : containsSub [c] (("\n").data) = false) :
    ∀ (ms : List RuleMatch) (acc : List Char),
      (∀ m ∈ ms, containsSub [c] (ruleTitle m.rule_data language) = false) →
      containsSub [c] acc = false →
      containsSub [c]
        (ms.foldl (fun acc m =>
          acc ++ ("• ").data ++ ruleTitle m.rule_data language ++ ("\n").data) acc)
        = false := by
  intro ms
  induction ms with
  | nil => intro acc _ hacc; exact hacc
  | cons m rest ih =>
    intro acc hms hacc
    simp only [List.foldl]
    apply ih
    · intro m' hm'
      exact hms m' (List.mem_cons_of_mem _ hm')
    · simp only [containsSub_single_append, hacc, hc1, hc2,
        hms m (List.mem_cons_self _ _), Bool.or_false]

/-- No rule title or body of the corpus contains the expert-tip marker 💡 or
the see-also marker 📚. -/
lemma corpus_markers_free (rule : RuleRec) (hr : rule ∈ allRules) (language : Lang) :
    containsSub ['💡'] (ruleTitle rule language) = false ∧
    containsSub ['💡'] (ruleContent rule language) = false ∧
    containsSub ['📚'] (ruleTitle rule language) = false ∧
    containsSub ['📚'] (ruleContent rule language) = false := by
  fin_cases hr <;> cases language <;> exact ⟨by decide, by decide, by decide, by decide⟩

/-! ## The claims -/

/-- Claim C10 (confirmed): trump detection is substring containment, not
word matching.  `has_ace` is exactly containment of the letter `a` in the
lowercased description, `has_jack` exactly containment of `v` or `j`, and a
description containing `a`, `j` or `v`, `9` and `10` as substrings has
`complete_trumps`, whatever words they sit in. -/
theorem claim10 (d : List Char) :
    ((analyze_trumps d).has_ace = containsSub (("a").data) d) ∧
    ((analyze_trumps d).has_jack =
      (containsSub (("v").data) d || containsSub (("j").data) d)) ∧
    (containsSub (("a").data) d = true →
      (containsSub (("j").data) d = true ∨ containsSub (("v").data) d = true) →
      containsSub (("9").data) d = true →
      containsSub (("10").data) d = true →
      (analyze_trumps d).complete_trumps = true) := by
  have hace : (analyze_trumps d).has_ace = containsSub (("a").data) d := by
    cases h : containsSub (("a").data) d
    · have h1 : containsSub (("as").data) d = false :=
        containsSub_head_false 'a' (("s").data) d h
      have h2 : containsSub (("ace").data) d = false :=
        containsSub_head_false 'a' (("ce").data) d h
      simp [analyze_trumps, h, h1, h2]
    · simp [analyze_trumps, h]
  have hjack : (analyze_trumps d).has_jack =
      (containsSub (("v").data) d || containsSub (("j").data) d) := by
    cases hv : containsSub (("v").data) d
    · cases hj : containsSub (("j").data) d
      · have h1 : containsSub (("valet").data) d = false :=
          containsSub_head_false 'v' (("alet").data) d hv
        have h2 : containsSub (("jack").data) d = false :=
          containsSub_head_false 'j' (("ack").data) d hj
        simp [analyze_trumps, hv, hj, h1, h2]
      · simp [analyze_trumps, hv, hj]
    · simp [analyze_trumps, hv]
  refine ⟨hace, hjack, fun ha hjv h9 h10 => ?_⟩
  have hj : (analyze_trumps d).has_jack = true := by
    rcases hjv with h | h <;> simp [hjack, h]
  have hn : (analyze_trumps d).has_nine = true := by
    simp [analyze_trumps, h9]
  have ht : (analyze_trumps d).has_ten = true := by
    simp [analyze_trumps, h10]
  have hac : (analyze_trumps d).has_ace = true := by rw [hace]; exact ha
  simp only [analyze_trumps] at hj hn ht hac ⊢
  simp_all

/-- Claim C5 (confirmed): for every description the evaluator agrees with
the decision table of the spec, evaluated highest-value-first, and the result
is an announcement in \x7b90,...,140\x7d with confidence in [0,1]. -/
theorem claim5 (description : List Char) (language : Lang) :
    ((evaluate_hand_advanced description language).recommended_announcement,
      (evaluate_hand_advanced description language).confidence) =
      spec_decision_table
        (analyze_trumps (pyLower description)).complete_trumps
        (analyze_trumps (pyLower description)).trump_count
        (analyze_colors (pyLower description)).color_count ∧
    (evaluate_hand_advanced description language).recommended_announcement ∈
      ([90, 100, 110, 120, 130, 140] : List Nat) ∧
    0 ≤ (evaluate_hand_advanced description language).confidence ∧
    (evaluate_hand_advanced description language).confidence ≤ 1 := by
  have h1 := determine_spec (analyze_trumps (pyLower description))
    (analyze_colors (pyLower description))
  have h2 := determine_range (analyze_trumps (pyLower description))
    (analyze_colors (pyLower description))
  exact ⟨h1, h2.1, h2.2.1, h2.2.2⟩

/-- Claim C1 (counterexample): on the description of the claim the
evaluator returns 110 with confidence at least 0.85 — refuted: it returns
130 (the complete-trumps-and-at-most-2-colours row fires first, since the
description names only the suit pique). -/
theorem claim1_counterexample :
    (evaluate_hand_advanced ("Valet 9 As 10 de pique plus 4 autres cartes").data
      Lang.fr).recommended_announcement = 130 ∧
    ¬((evaluate_hand_advanced ("Valet 9 As 10 de pique plus 4 autres cartes").data
        Lang.fr).recommended_announcement = 110 ∧
      (0.85 : ℚ) ≤ (evaluate_hand_advanced
        ("Valet 9 As 10 de pique plus 4 autres cartes").data Lang.fr).confidence) := by
  have h : (evaluate_hand_advanced ("Valet 9 As 10 de pique plus 4 autres cartes").data
      Lang.fr).recommended_announcement = 130 := by decide
  exact ⟨h, fun hc => by rw [h] at hc; exact absurd hc.1 (by norm_num)⟩

/-- Claim C1 (amended): on the description "Valet 9 As 10 de pique plus 4
autres cartes" in French the evaluator returns 130 with confidence 0.9,
which is at least 0.85. -/
theorem claim1_amended :
    (evaluate_hand_advanced ("Valet 9 As 10 de pique plus 4 autres cartes").data
      Lang.fr).recommended_announcement = 130 ∧
    (evaluate_hand_advanced ("Valet 9 As 10 de pique plus 4 autres cartes").data
      Lang.fr).confidence = 0.9 ∧
    (0.85 : ℚ) ≤ (evaluate_hand_advanced
      ("Valet 9 As 10 de pique plus 4 autres cartes").data Lang.fr).confidence := by
  have hc : (evaluate_hand_advanced ("Valet 9 As 10 de pique plus 4 autres cartes").data
      Lang.fr).confidence = 0.9 := rfl
  exact ⟨by decide, hc, by rw [hc]; norm_num⟩

/-- Claim C2 (counterexample): the claim says an unmatched query resolves
to the general fallback.  The query "annonce" is matched by no pattern and no
retrieval stage, yet `intelligent_fallback` resolves it to the
announcement-rules fallback text, not the general one. -/
theorem claim2_counterexample :
    handle_enhanced_patterns ("annonce").data Lang.fr = none ∧
    fuzzy_search false (fun _ => 0) (normalize_query ("annonce").data Lang.fr)
      Lang.fr = none ∧
    process_query_enhanced false false (fun _ => 0) (fun _ => 0) []
      ("annonce").data Lang.fr = fallback_fr_announcement_rules ∧
    fallback_fr_announcement_rules ≠ fallback_fr_general := by
  have hn : normalize_query ("annonce").data Lang.fr = ("annonce").data := by decide
  have hh : handle_enhanced_patterns ("annonce").data Lang.fr = none := by decide
  have hfind : (allRules.flatMap (fun rule =>
      (ruleVariations rule Lang.fr).map (fun v => (v, rule)))).find?
      (fun vr => vr.1 = ("annonce").data) = none := by decide
  have hf : fuzzy_search false (fun _ => 0) (("annonce").data) Lang.fr = none := by
    simp [fuzzy_search, find_best_matches, hfind,
      show ((0.7 : ℚ) < 1) from by norm_num]
  have hfb : intelligent_fallback ("annonce").data Lang.fr =
      fallback_fr_announcement_rules := by decide
  refine ⟨hh, by rw [hn]; exact hf, ?_, by decide⟩
  simp only [process_query_enhanced, List.lookup, hh, hn, hf, hfb,
    Bool.false_eq_true, if_false]

/-- Claim C2 (amended): whenever every cached response is non-empty the
entry point returns a non-empty string; when the cache misses and every
stage declines, it returns `intelligent_fallback`, and on the empty query the
fallback is the general fallback text.  (The totality of this model is the
no-raise half of the claim.) -/
theorem claim2_amended (modelAvailable deps : Bool) (cos fz : List Char → ℚ)
    (cache : List (List Char × List Char)) (query : List Char) (language : Lang)
    (hcache : ∀ r : List Char,
      cache.lookup (cacheKey query language) = some r → r ≠ []) :
    process_query_enhanced modelAvailable deps cos fz cache query language ≠ [] ∧
    (cache.lookup (cacheKey query language) = none →
      handle_enhanced_patterns query language = none →
      (modelAvailable = true →
        semantic_search_enhanced cos (normalize_query query language) language = none) →
      fuzzy_search deps fz (normalize_query query language) language = none →
      process_query_enhanced modelAvailable deps cos fz cache query language =
        intelligent_fallback query language) ∧
    intelligent_fallback [] language = generalFallbackText language := by
  refine ⟨?_, ?_, ?_⟩
  · unfold process_query_enhanced
    cases hl : cache.lookup (cacheKey query language) with
    | some r => exact hcache r hl
    | none =>
      dsimp only
      cases hh : handle_enhanced_patterns query language with
      | some r => exact handle_some_ne_nil query language r hh
      | none =>
        dsimp only
        cases hs : (if modelAvailable then
            semantic_search_enhanced cos (normalize_query query language) language
            else none) with
        | some r =>
          cases modelAvailable with
          | true => exact semantic_some_ne_nil cos _ language r (by simpa using hs)
          | false => simp at hs
        | none =>
          dsimp only
          cases hf : fuzzy_search deps fz (normalize_query query language) language with
          | some r => exact fuzzy_some_ne_nil deps fz _ language r hf
          | none => exact intelligent_fallback_ne_nil query language
  · intro h1 h2 h3 h4
    cases modelAvailable with
    | true => simp only [process_query_enhanced, h1, h2, h3 rfl, h4, if_true]
    | false =>
      simp only [process_query_enhanced, h1, h2, h4, Bool.false_eq_true,
        if_false]
  · cases language <;> decide

/-- Claim C2 witness: the amended theorem applied to the empty cache and
the query "bonjour". -/
theorem claim2_witness :
    process_query_enhanced false false (fun _ => 0) (fun _ => 0) []
      ("bonjour").data Lang.fr ≠ [] :=
  (claim2_amended false false (fun _ => 0) (fun _ => 0) []
    ("bonjour").data Lang.fr (fun _ h => nomatch h)).1

/-- Claim C3 (confirmed): for every p in \x7b90,...,140\x7d and both
languages, the localized query "recommendation for p points" is answered by
the pattern stage with a non-empty response containing the digits of p, and
the router returns exactly that response whatever the model or fuzzy
externals do. -/
theorem claim3 (p : Nat) (hp : p ∈ ([90, 100, 110, 120, 130, 140] : List Nat))
    (language : Lang) :
    ∃ r : List Char,
      handle_enhanced_patterns (recommendationQuery language p) language = some r ∧
      r ≠ [] ∧ containsSub (Nat.repr p).data r = true ∧
      ∀ (modelAvailable deps : Bool) (cos fz : List Char → ℚ),
        process_query_enhanced modelAvailable deps cos fz []
          (recommendationQuery language p) language = r := by
  simp only [List.mem_cons, List.not_mem_nil, or_false] at hp
  rcases hp with rfl | rfl | rfl | rfl | rfl | rfl <;> cases language <;>
    exact c3_case _ _ _ (by decide) (by decide) (by decide)

/-- Claim C3 witness: instantiated at p = 120 in French. -/
theorem claim3_witness :
    ∃ r : List Char,
      handle_enhanced_patterns (recommendationQuery Lang.fr 120) Lang.fr = some r ∧
      r ≠ [] ∧ containsSub (Nat.repr 120).data r = true ∧
      ∀ (modelAvailable deps : Bool) (cos fz : List Char → ℚ),
        process_query_enhanced modelAvailable deps cos fz []
          (recommendationQuery Lang.fr 120) Lang.fr = r :=
  claim3 120 (by decide) Lang.fr

/-- Claim C4 (confirmed): when no boundary-delimited occurrence of a
point token of \x7b90,...,140\x7d occurs in the normalised query,
point extraction returns the empty list, the points stage yields no
response, and pattern handling equals the pipeline with the points stage
removed — so processing falls through to the later stages. -/
theorem claim4 (query : List Char) (language : Lang)
    (h : hasBoundaryAlt none (pyStrip (pyLower query)) = false) :
    extract_points_from_query (pyStrip (pyLower query)) = [] ∧
    pointsStage query language = none ∧
    handle_enhanced_patterns query language = handleStagesNoPoints query language := by
  have he := extract_points_nil_of_noBoundaryAlt _ h
  have hp : pointsStage query language = none := by
    unfold pointsStage
    dsimp only
    rw [he]
    rfl
  refine ⟨he, hp, ?_⟩
  unfold handle_enhanced_patterns handleStagesNoPoints
  rw [hp]

/-- Claim C4 witness: the query "recommandation pour 95 points" (95 is
outside the recognised set), in French. -/
theorem claim4_witness :
    extract_points_from_query
      (pyStrip (pyLower ("recommandation pour 95 points").data)) = [] ∧
    pointsStage ("recommandation pour 95 points").data Lang.fr = none ∧
    handle_enhanced_patterns ("recommandation pour 95 points").data Lang.fr =
      handleStagesNoPoints ("recommandation pour 95 points").data Lang.fr :=
  claim4 ("recommandation pour 95 points").data Lang.fr (by decide)

/-- Claim C6 (counterexample): no single per-keyword weight exists: the
boost of one matched keyword is 2/35 for a rule with 7 keywords and 1/20
for a rule with 8 keywords, so the per-keyword scale depends on the rule,
and the cap is 0.4, not 0.9. -/
theorem claim6_counterexample :
    ¬ ∃ w : ℚ, ∀ (query_keywords : List (List Char)) (rule : RuleRec)
        (language : Lang), rule ∈ allRules →
        calculate_keyword_boost query_keywords rule language =
          min ((((ruleKeywords rule language).dedup.filter
            (fun k => query_keywords.contains k)).length : ℚ) * w) (9 / 10) := by
  rintro ⟨w, hw⟩
  have h1 := hw [("coinche").data] rule_coinche_system_detailed Lang.fr
    (by unfold allRules; exact List.mem_cons_of_mem _ (List.mem_cons_of_mem _
      (List.mem_cons_of_mem _ (List.mem_cons_self _ _))))
  have h2 := hw [("capot").data] rule_capot_rules_complete Lang.fr
    (by unfold allRules; exact List.mem_cons_of_mem _ (List.mem_cons_of_mem _
      (List.mem_cons_of_mem _ (List.mem_cons_of_mem _ (List.mem_cons_of_mem _
        (List.mem_cons_self _ _))))))
  have c1 : ((ruleKeywords rule_coinche_system_detailed Lang.fr).dedup.filter
      (fun k => [("coinche").data].contains k)).length = 1 := by decide
  have c2 : ((ruleKeywords rule_capot_rules_complete Lang.fr).dedup.filter
      (fun k => [("capot").data].contains k)).length = 1 := by decide
  have b1 : calculate_keyword_boost [("coinche").data]
      rule_coinche_system_detailed Lang.fr = 2 / 35 := by
    have hl : ((ruleKeywords rule_coinche_system_detailed Lang.fr).dedup).length = 7 := by
      decide
    have he : ((ruleKeywords rule_coinche_system_detailed Lang.fr).dedup).isEmpty
        = false := by decide
    simp only [calculate_keyword_boost, c1, hl, he]
    norm_num
  have b2 : calculate_keyword_boost [("capot").data]
      rule_capot_rules_complete Lang.fr = 1 / 20 := by
    have hl : ((ruleKeywords rule_capot_rules_complete Lang.fr).dedup).length = 8 := by
      decide
    have he : ((ruleKeywords rule_capot_rules_complete Lang.fr).dedup).isEmpty
        = false := by decide
    simp only [calculate_keyword_boost, c2, hl, he]
    norm_num
  rw [b1, c1] at h1
  rw [b2, c2] at h2
  have h3 := h2.trans h1.symm
  norm_num at h3

/-- Claim C6 (amended): the keyword boost equals the matched-keyword
count scaled by 0.4 divided by the rule\x27s keyword count (0 for a rule
with no keywords), capped at 0.4 — hence also below the 0.9 of the claim. -/
theorem claim6_amended (query_keywords : List (List Char)) (rule : RuleRec)
    (language : Lang) :
    calculate_keyword_boost query_keywords rule language =
      (if ((ruleKeywords rule language).dedup).isEmpty then 0
       else min
        ((((ruleKeywords rule language).dedup.filter
            (fun k => query_keywords.contains k)).length : ℚ) *
          ((2 / 5) / ((ruleKeywords rule language).dedup).length)) (2 / 5)) ∧
    calculate_keyword_boost query_keywords rule language ≤ 2 / 5 ∧
    calculate_keyword_boost query_keywords rule language ≤ 9 / 10 := by
  have heq : calculate_keyword_boost query_keywords rule language =
      (if ((ruleKeywords rule language).dedup).isEmpty then 0
       else min
        ((((ruleKeywords rule language).dedup.filter
            (fun k => query_keywords.contains k)).length : ℚ) *
          ((2 / 5) / ((ruleKeywords rule language).dedup).length)) (2 / 5)) := by
    simp only [calculate_keyword_boost]
    split
    · rfl
    · rw [show (0.4 : ℚ) = 2 / 5 by norm_num]
      congr 1
      rw [div_mul_eq_mul_div, mul_div_assoc]
  refine ⟨heq, ?_, ?_⟩ <;> rw [heq] <;> split
  · norm_num
  · exact min_le_right _ _
  · norm_num
  · exact le_trans (min_le_right _ _) (by norm_num)

/-- Claim C7 (counterexample): the rule-pattern signal is not a flat
+0.5: for the query "capot" the capot rule attains the maximal variation
boost, which is 3/10, not 1/2. -/
theorem claim7_counterexample :
    calculate_variation_boost ("capot").data rule_capot_rules_complete Lang.fr
      = 3 / 10 ∧ (3 / 10 : ℚ) ≠ 1 / 2 := by
  constructor
  · have pl0 : pyLower ("capot").data = ("capot").data := by decide
    have pl1 : pyLower ("tous les plis").data = ("tous les plis").data := by decide
    have pl2 : pyLower ("250 points").data = ("250 points").data := by decide
    have pl3 : pyLower ("règles capot").data = ("règles capot").data := by decide
    have pl4 : pyLower ("quand capot").data = ("quand capot").data := by decide
    have pl5 : pyLower ("stratégie capot").data = ("stratégie capot").data := by decide
    have pl6 : pyLower ("risque capot").data = ("risque capot").data := by decide
    have h1 : blocksSum ("capot").data ("capot").data = 5 := by decide
    have h2 : blocksSum ("capot").data ("tous les plis").data = 1 := by decide
    have h3 : blocksSum ("capot").data ("250 points").data = 3 := by decide
    have h4 : blocksSum ("capot").data ("règles capot").data = 5 := by decide
    have h5 : blocksSum ("capot").data ("quand capot").data = 5 := by decide
    have h6 : blocksSum ("capot").data ("stratégie capot").data = 5 := by decide
    have h7 : blocksSum ("capot").data ("risque capot").data = 5 := by decide
    norm_num [calculate_variation_boost, ruleVariations, rule_capot_rules_complete,
      calculate_similarity, ratioSM, pl0, pl1, pl2, pl3, pl4, pl5, pl6,
      h1, h2, h3, h4, h5, h6, h7]
  · norm_num

/-- Claim C7 (amended): the boost a rule\x27s own variation patterns add
during semantic retrieval is `calculate_variation_boost`, a
similarity-scaled quantity never exceeding 0.3 (similarity times 0.3 over
the variations with similarity above 0.7) — no flat +0.5 exists. -/
theorem claim7_amended (query : List Char) (rule : RuleRec) (language : Lang) :
    calculate_variation_boost query rule language ≤ 3 / 10 :=
  variation_boost_le query rule language

/-- Claim C8 (counterexample): a best score of 3/4 clears 0.7 and the
top rule is of the announcements category, yet no expert tip is appended:
the tip threshold in the code is 0.8, not 0.7. -/
theorem claim8_counterexample :
    (0.7 : ℚ) < (3 / 4 : ℚ) ∧
    rule_announcement_rules_complete.category = ("announcements").data ∧
    containsSub ['💡'] (generate_enhanced_response
      [{ rule_id := ("announcement_rules_complete").data
         score := 3 / 4
         rule_data := rule_announcement_rules_complete
         match_type := ("semantic").data }] ("x").data Lang.fr) = false := by
  refine ⟨by norm_num, by decide, ?_⟩
  unfold generate_enhanced_response
  dsimp only
  split_ifs with h1 h2 h2
  · exact absurd h1.1 (by decide)
  · exact absurd h1.1 (by decide)
  · exact absurd h2.2 (by norm_num)
  · decide

/-- Claim C8 (amended): the response is the top title and body followed
by optional extras; the expert-tip marker appears in the response if and
only if the best score exceeds 0.8 AND the top category is announcements,
and the also-see marker appears if and only if the best score exceeds 0.8
and further matches exist. -/
theorem claim8_amended (best : RuleMatch) (rest : List RuleMatch)
    (query : List Char) (language : Lang)
    (hbest : best.rule_data ∈ allRules)
    (hrest : ∀ m ∈ rest, m.rule_data ∈ allRules) :
    (∃ t, generate_enhanced_response (best :: rest) query language =
      ("**").data ++ ruleTitle best.rule_data language ++ ("**\n\n").data ++
        ruleContent best.rule_data language ++ t) ∧
    (containsSub ['💡']
        (generate_enhanced_response (best :: rest) query language) = true ↔
      ((0.8 : ℚ) < best.score ∧
        best.rule_data.category = ("announcements").data)) ∧
    (containsSub ['📚']
        (generate_enhanced_response (best :: rest) query language) = true ↔
      ((0.8 : ℚ) < best.score ∧ rest ≠ [])) := by
  obtain ⟨ht1, ht2, ht3, ht4⟩ := corpus_markers_free best.rule_data hbest language
  have htip : containsSub ['💡'] (expertTip language) = true := by
    cases language <;> decide
  have thdr : containsSub ['📚'] (relatedHeader language) = true := by
    cases language <;> decide
  have htipsee : containsSub ['📚'] (expertTip language) = false := by
    cases language <;> decide
  have thdrtip : containsSub ['💡'] (relatedHeader language) = false := by
    cases language <;> decide
  have hfold_tip : containsSub ['💡']
      ((rest.take 2).foldl (fun acc m =>
        acc ++ ("• ").data ++ ruleTitle m.rule_data language ++ ("\n").data) [])
      = false :=
    containsSub_single_foldl '💡' language (by decide) (by decide) _ []
      (fun m hm =>
        (corpus_markers_free m.rule_data (hrest m (List.mem_of_mem_take hm)) language).1)
      (by decide)
  have hfold_see : containsSub ['📚']
      ((rest.take 2).foldl (fun acc m =>
        acc ++ ("• ").data ++ ruleTitle m.rule_data language ++ ("\n").data) [])
      = false :=
    containsSub_single_foldl '📚' language (by decide) (by decide) _ []
      (fun m hm =>
        (corpus_markers_free m.rule_data (hrest m (List.mem_of_mem_take hm)) language).2.2.1)
      (by decide)
  have hemp : rest ≠ [] → rest.isEmpty = false := by
    intro hr
    cases rest with
    | nil => exact absurd rfl hr
    | cons a as => rfl
  have hemp2 : rest.isEmpty = false → rest ≠ [] := by
    intro hi
    cases rest with
    | nil => simp at hi
    | cons a as => exact List.cons_ne_nil a as
  have e1 : containsSub ['💡'] (("**").data) = false := by decide
  have e2 : containsSub ['💡'] (("**\n\n").data) = false := by decide
  have e3 : containsSub ['💡'] (("\n\n").data) = false := by decide
  have e4 : containsSub ['💡'] (("\n").data) = false := by decide
  have f1 : containsSub ['📚'] (("**").data) = false := by decide
  have f2 : containsSub ['📚'] (("**\n\n").data) = false := by decide
  have f3 : containsSub ['📚'] (("\n\n").data) = false := by decide
  have f4 : containsSub ['📚'] (("\n").data) = false := by decide
  unfold generate_enhanced_response
  dsimp only
  split_ifs with hsee htipc htipc
  · refine ⟨⟨expertTip language ++ ("\n\n").data ++ relatedHeader language ++
        ("\n").data ++ (rest.take 2).foldl (fun acc m =>
          acc ++ ("• ").data ++ ruleTitle m.rule_data language ++ ("\n").data) [],
        by simp [List.append_assoc]⟩,
      ⟨fun _ => ⟨htipc.2, htipc.1⟩, fun _ => ?_⟩,
      ⟨fun _ => ⟨hsee.2, hemp2 hsee.1⟩, fun _ => ?_⟩⟩
    · simp only [containsSub_single_append, htip, ht1, ht2, e1, e2, e3, e4,
        Bool.or_true, Bool.true_or, Bool.or_false, Bool.false_or]
    · simp only [containsSub_single_append, thdr, ht3, ht4, f1, f2, f3, f4,
        Bool.or_true, Bool.true_or, Bool.or_false, Bool.false_or]
  · refine ⟨⟨("\n\n").data ++ relatedHeader language ++ ("\n").data ++
        (rest.take 2).foldl (fun acc m =>
          acc ++ ("• ").data ++ ruleTitle m.rule_data language ++ ("\n").data) [],
        by simp [List.append_assoc]⟩,
      ⟨fun h => absurd h ?_, fun hc => absurd ⟨hc.2, hc.1⟩ htipc⟩,
      ⟨fun _ => ⟨hsee.2, hemp2 hsee.1⟩, fun _ => ?_⟩⟩
    · simp only [containsSub_single_append, thdrtip, ht1, ht2, e1, e2, e3, e4,
        hfold_tip, Bool.or_false, Bool.false_or]
      exact Bool.false_ne_true
    · simp only [containsSub_single_append, thdr, ht3, ht4, f1, f2, f3, f4,
        Bool.or_true, Bool.true_or, Bool.or_false, Bool.false_or]
  · refine ⟨⟨expertTip language, by simp [List.append_assoc]⟩,
      ⟨fun _ => ⟨htipc.2, htipc.1⟩, fun _ => ?_⟩,
      ⟨fun h => absurd h ?_, fun hc => absurd ⟨hemp hc.2, hc.1⟩ hsee⟩⟩
    · simp only [containsSub_single_append, htip, ht1, ht2, e1, e2,
        Bool.or_true, Bool.true_or, Bool.or_false, Bool.false_or]
    · simp only [containsSub_single_append, htipsee, ht3, ht4, f1, f2,
        Bool.or_false, Bool.false_or]
      exact Bool.false_ne_true
  · refine ⟨⟨[], by simp⟩,
      ⟨fun h => absurd h ?_, fun hc => absurd ⟨hc.2, hc.1⟩ htipc⟩,
      ⟨fun h => absurd h ?_, fun hc => absurd ⟨hemp hc.2, hc.1⟩ hsee⟩⟩
    · simp only [containsSub_single_append, ht1, ht2, e1, e2,
        Bool.or_false, Bool.false_or]
      exact Bool.false_ne_true
    · simp only [containsSub_single_append, ht3, ht4, f1, f2,
        Bool.or_false, Bool.false_or]
      exact Bool.false_ne_true

/-- Claim C8 witness: the amended theorem applied to a singleton match
list on the capot rule with score 1/2: both marker biconditionals at a
concrete input. -/
theorem claim8_witness :
    (containsSub ['💡'] (generate_enhanced_response
      [{ rule_id := ("capot").data, score := 1/2,
         rule_data := rule_capot_rules_complete,
         match_type := ("semantic").data }] ("x").data Lang.fr) = true ↔
      ((0.8 : ℚ) < (1/2 : ℚ) ∧
        rule_capot_rules_complete.category = ("announcements").data)) ∧
    (containsSub ['📚'] (generate_enhanced_response
      [{ rule_id := ("capot").data, score := 1/2,
         rule_data := rule_capot_rules_complete,
         match_type := ("semantic").data }] ("x").data Lang.fr) = true ↔
      ((0.8 : ℚ) < (1/2 : ℚ) ∧ ([] : List RuleMatch) ≠ [])) :=
  (claim8_amended
    { rule_id := ("capot").data, score := 1/2,
      rule_data := rule_capot_rules_complete,
      match_type := ("semantic").data } [] ("x").data Lang.fr
    (by unfold allRules
        exact List.mem_cons_of_mem _ (List.mem_cons_of_mem _
          (List.mem_cons_of_mem _ (List.mem_cons_of_mem _
            (List.mem_cons_of_mem _ (List.mem_cons_self _ _))))))
    (fun m hm => absurd hm (List.not_mem_nil m))).2

/-- Claim C9 (counterexample): normalisation is not idempotent, and the
derived keyword set can grow: on "calcul scoress" one pass rewrites
scoress to scores and a second pass rewrites scores to score, whose
keyword set gains the synonym-mapped keyword point. -/
theorem claim9_counterexample :
    normalize_query (normalize_query ("calcul scoress").data Lang.fr) Lang.fr ≠
      normalize_query ("calcul scoress").data Lang.fr ∧
    (extract_keywords (normalize_query ("calcul scoress").data Lang.fr)
      Lang.fr).contains (("point").data) = true ∧
    (extract_keywords ("calcul scoress").data Lang.fr).contains
      (("point").data) = false :=
  ⟨by decide, by decide, by decide⟩

/-- Claim C9 (amended): lowering-and-stripping is idempotent, so a second
normalisation pass is exactly a re-run of the variation substitutions on
the once-normalised query (re-lowered and re-stripped): normalisation is
idempotent if and only if the substitutions leave the once-normalised
query fixed, and in particular whenever they already leave the raw
lowered-and-stripped query fixed. -/
theorem claim9_amended (q : List Char) (language : Lang) :
    pyStrip (pyLower (pyStrip (pyLower q))) = pyStrip (pyLower q) ∧
    (normalize_query (normalize_query q language) language =
        normalize_query q language ↔
      applySubs language (pyStrip (pyLower (normalize_query q language))) =
        normalize_query q language) ∧
    (applySubs language (pyStrip (pyLower q)) = pyStrip (pyLower q) →
      normalize_query (normalize_query q language) language =
        normalize_query q language) := by
  refine ⟨lowerStrip_idem q, Iff.rfl, fun h => ?_⟩
  unfold normalize_query
  rw [h, lowerStrip_idem, h]

/-- Claim C9 witness: the amended theorem applied to the untouched query
"bonjour" in French. -/
theorem claim9_witness :
    normalize_query (normalize_query ("bonjour").data Lang.fr) Lang.fr =
      normalize_query ("bonjour").data Lang.fr :=
  (claim9_amended ("bonjour").data Lang.fr).2.2 (by decide)
